import Mathlib

/-!
# Formal model of the pyprofibus core (FDL codec, DP layer, DP master)

This file is a shallow embedding, in Lean 4, of the parts of the pyprofibus
PROFIBUS-DP master implementation that the specification claims talk about:

* `pyprofibus/fdl.py` — the FDL telegram codec (`FdlTelegram.getRawData`,
  `FdlTelegram.fromRawData`, `FdlTelegram.getSizeFromRaw`), the FCB context
  (`FdlFCB`) and the transceiver send path (`FdlTransceiver.send`);
* `pyprofibus/phy.py` — the `CpPhy.send` entry point (modelled only as far as
  its argument handling, which is what the claims need);
* `pyprofibus/dp.py` — DP telegram encoding (`DpTelegram.toFdlTelegram`),
  SAP extraction (`DpTelegram.extractSAP`) and receive dispatch
  (`DpTelegram.fromFdlTelegram`);
* `pyprofibus/dp_master.py` — slave registration (`DpMaster.addSlave`),
  the master-out data setter (`DpMaster._setToSlaveData`), the watchdog
  factor computation (`DpSlaveDesc.setWatchdog`) and the master slow-down
  policy (`DpMaster.__masterSlowDown` / `DpMaster.run`).

Bytes are modelled as `Nat` (with explicit masking mirroring the Python
bit operations), byte strings as `List Nat`, and Python exceptions as an
`Except` error channel.  Python's exception classes are mirrored by the
`PyError` inductive; note that `AttributeError`/`TypeError` are *not*
subclasses of `ProfibusError` in the source, which matters for the send
path (see `cpPhySend`).
-/

/-- Python exception model.  `fdlError`, `dpError` and `phyError` correspond
to the source's `FdlError`, `DpError` and `PhyError` (all subclasses of
`ProfibusError`); `attributeError` and `typeError` are Python builtins and
are not `ProfibusError`s. -/
inductive PyError where
  | fdlError (msg : String)
  | dpError (msg : String)
  | phyError (msg : String)
  | attributeError (msg : String)
  | typeError (msg : String)
deriving Repr, DecidableEq

/-- `True` exactly for the source's `ProfibusError` subclasses: these are the
errors caught by `except ProfibusError` handlers such as the one in
`DpMaster.__send`. -/
def PyError.isProfibusError : PyError → Bool
  | .fdlError _ => true
  | .dpError _ => true
  | .phyError _ => true
  | .attributeError _ => false
  | .typeError _ => false

/-- An FDL telegram, mirroring the fields of `FdlTelegram.__init__` in
`pyprofibus/fdl.py`.  `da`/`sa` are stored already masked with
`ADDRESS_MASK`, exactly as the Python constructor stores them. -/
structure FdlTelegram where
  sd : Nat
  haveLE : Bool
  da : Option Nat
  sa : Option Nat
  fc : Option Nat
  dae : List Nat
  sae : List Nat
  du : Option (List Nat)
  haveFCS : Bool
  ed : Option Nat
deriving Repr, DecidableEq

namespace FdlTelegram

/-- Start delimiter SD1 (no DU). -/
def SD1 : Nat := 0x10
/-- Start delimiter SD2 (variable DU). -/
def SD2 : Nat := 0x68
/-- Start delimiter SD3 (8 octet fixed DU). -/
def SD3 : Nat := 0xA2
/-- Start delimiter SD4 (token telegram). -/
def SD4 : Nat := 0xDC
/-- Short ACK. -/
def SC : Nat := 0xE5
/-- End delimiter. -/
def ED : Nat := 0x16

/-- Address value mask. -/
def ADDRESS_MASK : Nat := 0x7F
/-- DAE/SAE present flag on DA/SA. -/
def ADDRESS_EXT : Nat := 0x80
/-- Multicast/broadcast address. -/
def ADDRESS_MCAST : Nat := 127

/-- Address extension: further extensions present. -/
def AE_EXT : Nat := 0x80
/-- Address extension: segment address flag. -/
def AE_SEGMENT : Nat := 0x40
/-- Address extension: address number mask. -/
def AE_ADDRESS : Nat := 0x3F

/-- Frame control: request bit. -/
def FC_REQ : Nat := 0x40
/-- Request function code mask. -/
def FC_REQFUNC_MASK : Nat := 0x0F
def FC_SDA_LO : Nat := 0x03
def FC_SDN_LO : Nat := 0x04
def FC_SDA_HI : Nat := 0x05
def FC_SDN_HI : Nat := 0x06
def FC_DDB : Nat := 0x07
def FC_FDL_STAT : Nat := 0x09
def FC_SRD_LO : Nat := 0x0C
def FC_SRD_HI : Nat := 0x0D
def FC_IDENT : Nat := 0x0E
def FC_LSAP : Nat := 0x0F
/-- Frame count bit valid. -/
def FC_FCV : Nat := 0x10
/-- Frame count bit. -/
def FC_FCB : Nat := 0x20
/-- Response function code mask. -/
def FC_RESFUNC_MASK : Nat := 0x0F
def FC_OK : Nat := 0x00
def FC_RS : Nat := 0x03
def FC_DL : Nat := 0x08
def FC_DH : Nat := 0x0A
def FC_RDL : Nat := 0x0C
def FC_RDH : Nat := 0x0D
/-- Response station type mask. -/
def FC_STYPE_MASK : Nat := 0x30
/-- Station type: slave station. -/
def FC_SLAVE : Nat := 0x00

/-- `FdlTelegram.__init__`: the constructor masks `da` and `sa` with
`ADDRESS_MASK` when they are present and stores everything else verbatim. -/
def mkTelegram (sd : Nat) (haveLE : Bool) (da sa : Option Nat)
    (fc : Option Nat) (dae sae : List Nat) (du : Option (List Nat))
    (haveFCS : Bool) (ed : Option Nat) : FdlTelegram :=
  { sd := sd
    haveLE := haveLE
    da := da.map (fun x => Nat.land x ADDRESS_MASK)
    sa := sa.map (fun x => Nat.land x ADDRESS_MASK)
    fc := fc
    dae := dae
    sae := sae
    du := du
    haveFCS := haveFCS
    ed := ed }

/-- `FdlTelegram.getRealDuLen`: real length of the DU field, including the
address extension bytes. -/
def getRealDuLen (t : FdlTelegram) : Nat :=
  (t.du.getD []).length + t.dae.length + t.sae.length

/-- `FdlTelegram.calcFCS`: `sum(data) & 0xFF`. -/
def calcFCS (data : List Nat) : Nat :=
  Nat.land data.sum 0xFF

/-- `FdlTelegram.getRawData`: serialize a telegram to raw frame bytes.
Emits, in order: SD (with the repeated LE/LE/SD head when `haveLE`), DA
(with `ADDRESS_EXT` or-ed in when a DAE chain is present), SA (same with
SAE), FC, DAE bytes, SAE bytes, DU bytes, FCS (over the bytes after the
head), ED. -/
def getRawData (t : FdlTelegram) : List Nat :=
  let head : List Nat :=
    if t.haveLE then
      let le := 3 + t.getRealDuLen
      [t.sd, le, le, t.sd]
    else
      [t.sd]
  let daPart : List Nat :=
    match t.da with
    | none => []
    | some da => [if t.dae.isEmpty then da else Nat.lor da ADDRESS_EXT]
  let saPart : List Nat :=
    match t.sa with
    | none => []
    | some sa => [if t.sae.isEmpty then sa else Nat.lor sa ADDRESS_EXT]
  let fcPart : List Nat :=
    match t.fc with
    | none => []
    | some fc => [fc]
  let duPart : List Nat :=
    match t.du with
    | none => []
    | some du => du
  let body := head ++ daPart ++ saPart ++ fcPart ++ t.dae ++ t.sae ++ duPart
  let withFCS :=
    if t.haveFCS then
      body ++ [calcFCS (if t.haveLE then body.drop 4 else body.drop 1)]
    else
      body
  match t.ed with
  | none => withFCS
  | some e => withFCS ++ [e]

/-- `FdlTelegram_stat0.__init__` (SD1 telegram: DA, SA, FC, FCS, ED). -/
def stat0 (da sa : Option Nat) (fc : Nat) : FdlTelegram :=
  mkTelegram SD1 false da sa (some fc) [] [] none true (some ED)

/-- The record built by `FdlTelegram_var.__init__` before its length
check. -/
def varBase (da sa : Option Nat) (fc : Nat) (dae sae du : List Nat) :
    FdlTelegram :=
  mkTelegram SD2 true da sa (some fc) dae sae (some du) true (some ED)

/-- `FdlTelegram_var.__init__` (SD2 telegram): raises `FdlError` when the
real DU length exceeds 246. -/
def varTg (da sa : Option Nat) (fc : Nat) (dae sae du : List Nat) :
    Except PyError FdlTelegram :=
  let t := varBase da sa fc dae sae du
  if t.getRealDuLen > 246 then
    .error (.fdlError "Invalid data length (> 246)")
  else
    .ok t

/-- The record built by `FdlTelegram_stat8.__init__` before its length
check. -/
def stat8Base (da sa : Option Nat) (fc : Nat) (dae sae du : List Nat) :
    FdlTelegram :=
  mkTelegram SD3 false da sa (some fc) dae sae (some du) true (some ED)

/-- `FdlTelegram_stat8.__init__` (SD3 telegram): raises `FdlError` when the
real DU length differs from 8. -/
def stat8 (da sa : Option Nat) (fc : Nat) (dae sae du : List Nat) :
    Except PyError FdlTelegram :=
  let t := stat8Base da sa fc dae sae du
  if t.getRealDuLen ≠ 8 then
    .error (.fdlError "Invalid data length (!= 8)")
  else
    .ok t

/-- `FdlTelegram_token.__init__` (SD4 token telegram). -/
def token (da sa : Option Nat) : FdlTelegram :=
  mkTelegram SD4 false da sa none [] [] none false none

/-- `FdlTelegram_ack.__init__` (SC short acknowledge). -/
def ack : FdlTelegram :=
  mkTelegram SC false none none none [] [] none false none

/-- `FdlTelegram_FdlStat_Req.__init__`: SD1 request with
`FC_REQ | FC_FDL_STAT`. -/
def fdlStatReq (da sa : Nat) : FdlTelegram :=
  stat0 (some da) (some sa) (Nat.lor FC_REQ FC_FDL_STAT)

/-- Python list slicing `l[a:b]` for `0 ≤ a ≤ b` (the only shape the codec
uses). -/
def pySlice (l : List Nat) (a b : Nat) : List Nat :=
  (l.drop a).take (b - a)

/-- `FdlTelegram.__duExtractAe`: strip one address extension chain from the
front of the DU.  Returns the remaining DU and the chain (in order).  The
loop consumes bytes while `AE_EXT` is set and also consumes the terminating
byte; an exhausted DU raises `FdlError`. -/
def duExtractAe : List Nat → Except PyError (List Nat × List Nat)
  | [] => .error (.fdlError "Address extension error: Data too short")
  | b :: rest =>
    if Nat.land b AE_EXT ≠ 0 then
      match duExtractAe rest with
      | .error e => .error e
      | .ok (du, ae) => .ok (du, b :: ae)
    else
      .ok (rest, [b])

/-- Format error used for the `except IndexError` fallback in
`fromRawData` and `getSizeFromRaw`. -/
def fmtError : PyError := .fdlError "Invalid FDL packet format"

/-- `FdlTelegram.getSizeFromRaw`: probe a (possibly partial) raw buffer for
the total frame size.  Out-of-range accesses (Python `IndexError`) become
the generic format error, exactly as the source's `except IndexError`
handler turns them into `FdlError`. -/
def getSizeFromRaw (data : List Nat) : Except PyError Nat :=
  match data.get? 0 with
  | none => .error fmtError
  | some sd =>
    if sd = SD1 then .ok 6
    else if sd = SD3 then .ok 14
    else if sd = SD4 then .ok 3
    else if sd = SC then .ok 1
    else if sd = SD2 then
      match data.get? 1 with
      | none => .error fmtError
      | some le =>
        match data.get? 2 with
        | none => .error fmtError
        | some le2 =>
          if le2 ≠ le then
            .error (.fdlError "Repeated length field mismatch")
          else if le < 3 ∨ le > 249 then
            .error (.fdlError "Invalid LE field")
          else
            .ok (le + 6)
    else .error (.fdlError "Unknown start delimiter")

/-- The DAE/SAE extraction tail of the SD2 branch of
`FdlTelegram.fromRawData`: starting from the raw DA/SA bytes and the raw
DU, strip the DAE chain when `da` carries `ADDRESS_EXT`, then the SAE
chain when `sa` does, and build the `FdlTelegram_var`. -/
def sd2Dispatch (da sa fc : Nat) (du : List Nat) :
    Except PyError FdlTelegram :=
  if Nat.land da ADDRESS_EXT ≠ 0 then
    match duExtractAe du with
    | .error e => .error e
    | .ok (du2, dae) =>
      if Nat.land sa ADDRESS_EXT ≠ 0 then
        match duExtractAe du2 with
        | .error e => .error e
        | .ok (du3, sae) => varTg (some da) (some sa) fc dae sae du3
      else varTg (some da) (some sa) fc dae [] du2
  else
    if Nat.land sa ADDRESS_EXT ≠ 0 then
      match duExtractAe du with
      | .error e => .error e
      | .ok (du2, sae) => varTg (some da) (some sa) fc [] sae du2
    else varTg (some da) (some sa) fc [] [] du

/-- The DAE/SAE extraction tail of the SD3 branch of
`FdlTelegram.fromRawData`, building the `FdlTelegram_stat8`. -/
def sd3Dispatch (da sa fc : Nat) (du : List Nat) :
    Except PyError FdlTelegram :=
  if Nat.land da ADDRESS_EXT ≠ 0 then
    match duExtractAe du with
    | .error e => .error e
    | .ok (du2, dae) =>
      if Nat.land sa ADDRESS_EXT ≠ 0 then
        match duExtractAe du2 with
        | .error e => .error e
        | .ok (du3, sae) => stat8 (some da) (some sa) fc dae sae du3
      else stat8 (some da) (some sa) fc dae [] du2
  else
    if Nat.land sa ADDRESS_EXT ≠ 0 then
      match duExtractAe du with
      | .error e => .error e
      | .ok (du2, sae) => stat8 (some da) (some sa) fc [] sae du2
    else stat8 (some da) (some sa) fc [] [] du

/-- `FdlTelegram.fromRawData`: decode one raw frame.  Each Python
`IndexError` site is modelled by an out-of-range `List.get?`, which yields
the source's generic format error. -/
def fromRawData (data : List Nat) : Except PyError FdlTelegram :=
  match data.get? 0 with
  | none => .error fmtError
  | some sd =>
    if sd = SD1 then
      -- No DU
      if data.length ≠ 6 then .error (.fdlError "Invalid FDL packet length")
      else
        match data.get? 1, data.get? 2, data.get? 3, data.get? 4,
              data.get? 5 with
        | some da, some sa, some fc, some fcs, some ed =>
          if ed ≠ ED then .error (.fdlError "Invalid end delimiter")
          else if fcs ≠ calcFCS (pySlice data 1 4) then
            .error (.fdlError "Checksum mismatch")
          else .ok (stat0 (some da) (some sa) fc)
        | _, _, _, _, _ => .error fmtError
    else if sd = SD2 then
      -- Variable DU
      match data.get? 1 with
      | none => .error fmtError
      | some le =>
        match data.get? 2 with
        | none => .error fmtError
        | some le2 =>
          if le2 ≠ le then .error (.fdlError "Repeated length field mismatch")
          else if le < 3 ∨ le > 249 then .error (.fdlError "Invalid LE field")
          else
            match data.get? 3 with
            | none => .error fmtError
            | some sd2 =>
              if sd2 ≠ sd then .error (.fdlError "Repeated SD mismatch")
              else
                match data.get? (5 + le) with
                | none => .error fmtError
                | some ed =>
                  if ed ≠ ED then .error (.fdlError "Invalid end delimiter")
                  else
                    match data.get? (4 + le) with
                    | none => .error fmtError
                    | some fcs =>
                      if fcs ≠ calcFCS (pySlice data 4 (4 + le)) then
                        .error (.fdlError "Checksum mismatch")
                      else
                        let du := pySlice data 7 (7 + (le - 3))
                        if du.length ≠ le - 3 then
                          .error (.fdlError "FDL packet shorter than FE")
                        else
                          match data.get? 4, data.get? 5, data.get? 6 with
                          | some da, some sa, some fc =>
                            sd2Dispatch da sa fc du
                          | _, _, _ => .error fmtError
    else if sd = SD3 then
      -- Static 8 byte DU
      if data.length ≠ 14 then .error (.fdlError "Invalid FDL packet length")
      else
        match data.get? 13 with
        | none => .error fmtError
        | some ed =>
          if ed ≠ ED then .error (.fdlError "Invalid end delimiter")
          else
            match data.get? 12 with
            | none => .error fmtError
            | some fcs =>
              if fcs ≠ calcFCS (pySlice data 1 12) then
                .error (.fdlError "Checksum mismatch")
              else
                let du := pySlice data 4 12
                match data.get? 1, data.get? 2, data.get? 3 with
                | some da, some sa, some fc =>
                  sd3Dispatch da sa fc du
                | _, _, _ => .error fmtError
    else if sd = SD4 then
      -- Token telegram
      if data.length ≠ 3 then .error (.fdlError "Invalid FDL packet length")
      else
        match data.get? 1, data.get? 2 with
        | some da, some sa => .ok (token (some da) (some sa))
        | _, _ => .error fmtError
    else if sd = SC then
      -- ACK
      if data.length ≠ 1 then .error (.fdlError "Invalid FDL packet length")
      else .ok ack
    else .error (.fdlError "Invalid start delimiter")

end FdlTelegram

/-! ## FCB context and transceiver send path (`pyprofibus/fdl.py`,
`pyprofibus/phy.py`) -/

/-- `FdlFCB`: per-slave frame count bit context.  Fields mirror
`__fcb`, `__fcv`, `__fcbWaitingReply`, `__fcbEnabled`. -/
structure FdlFCB where
  fcb : Nat
  fcv : Nat
  fcbWaitingReply : Bool
  fcbEnabled : Bool
deriving Repr, DecidableEq

namespace FdlFCB

/-- `FdlFCB.__init__(enable)`: `resetFCB()` then `enableFCB(enable)`. -/
def mkFCB (enable : Bool) : FdlFCB :=
  { fcb := 1, fcv := 0, fcbWaitingReply := false, fcbEnabled := enable }

/-- `FdlFCB.resetFCB`. -/
def resetFCB (s : FdlFCB) : FdlFCB :=
  { s with fcb := 1, fcv := 0, fcbWaitingReply := false }

/-- `FdlFCB.enableFCB`. -/
def enableFCB (s : FdlFCB) (enabled : Bool) : FdlFCB :=
  { s with fcbEnabled := enabled }

/-- `FdlFCB.FCBnext`: toggle the FCB bit, set FCV, clear the waiting
flag. -/
def FCBnext (s : FdlFCB) : FdlFCB :=
  { s with fcb := Nat.xor s.fcb 1, fcv := 1, fcbWaitingReply := false }

/-- `FdlFCB.enabled`. -/
def enabled (s : FdlFCB) : Bool := s.fcbEnabled

/-- `FdlFCB.bitIsOn`. -/
def bitIsOn (s : FdlFCB) : Bool := s.fcb ≠ 0

/-- `FdlFCB.bitIsValid`. -/
def bitIsValid (s : FdlFCB) : Bool := s.fcv ≠ 0

/-- `FdlFCB.setWaitingReply`. -/
def setWaitingReply (s : FdlFCB) : FdlFCB :=
  { s with fcbWaitingReply := true }

/-- `FdlFCB.handleReply`: advance the FCB if a reply was pending. -/
def handleReply (s : FdlFCB) : FdlFCB :=
  if s.fcbWaitingReply then s.FCBnext else s

end FdlFCB

namespace FdlTelegram

/-- Clear the bits of `mask` in `a` (Python `a & ~mask` on a non-negative
int). -/
def clearBits (a mask : Nat) : Nat :=
  a - Nat.land a mask

/-- `FdlTransceiver.send(fcb, telegram)` up to (but not including) the final
`self.phy.send(...)` call: computes the SRD flag, rewrites the telegram's
FC with the FCB/FCV bits from the context, and updates the context.
A telegram without an FC would make the Python expression
`telegram.fc & FdlTelegram.FC_REQ` raise `TypeError`; every telegram the
master sends has one. -/
def transceiverSend (fcb : FdlFCB) (t : FdlTelegram) :
    Except PyError (FdlFCB × FdlTelegram × Bool) :=
  match t.fc with
  | none => .error (.typeError "unsupported operand type for &: NoneType")
  | some fc0 =>
    if Nat.land fc0 FC_REQ ≠ 0 then
      let func := Nat.land fc0 FC_REQFUNC_MASK
      let srd := func = FC_SRD_LO ∨ func = FC_SRD_HI ∨ func = FC_SDA_LO ∨
                 func = FC_SDA_HI ∨ func = FC_DDB ∨ func = FC_FDL_STAT ∨
                 func = FC_IDENT ∨ func = FC_LSAP
      let fc1 := clearBits fc0 (Nat.lor FC_FCB FC_FCV)
      if fcb.enabled then
        let fc2 := if fcb.bitIsOn then Nat.lor fc1 FC_FCB else fc1
        let fc3 := if fcb.bitIsValid then Nat.lor fc2 FC_FCV else fc2
        let fcb2 := if srd then fcb.setWaitingReply else fcb.FCBnext
        .ok (fcb2, { t with fc := some fc3 }, srd)
      else
        .ok (fcb, { t with fc := some fc1 }, srd)
    else
      .ok (fcb, t, false)

/-- The argument the transceiver hands to `phy.send`.  `fdl.py` passes the
raw byte list (`telegram.getRawData()`); `phy.py`'s `CpPhy.send` expects
the telegram object itself.  The sum type models the dynamically typed
call. -/
inductive PhySendArg where
  | rawBytes (data : List Nat)
  | telegramObj (t : FdlTelegram)
deriving Repr, DecidableEq

/-- `CpPhy.send(telegram, srd, maxReplyLen=-1)` from `pyprofibus/phy.py`,
modelled as far as its argument handling: it immediately evaluates
`telegram.da`, so calling it with a raw byte list (as
`FdlTransceiver.send` in this tree does) raises `AttributeError`; with a
telegram object it queues `(da, raw bytes, srd)` for transmission. -/
def cpPhySend (arg : PhySendArg) (srd : Bool) :
    Except PyError (Nat × List Nat × Bool) :=
  match arg with
  | .rawBytes _ =>
    .error (.attributeError "list object has no attribute da")
  | .telegramObj t =>
    match t.da with
    | none => .error (.typeError "list indices must be integers, not NoneType")
    | some da => .ok (da, t.getRawData, srd)

/-- The complete `FdlTransceiver.send` call including the final
`self.phy.send(telegram.getRawData(), srd)` hand-off, with `phy` a
`CpPhy` (as every PHY driver in this tree is). -/
def transceiverSendToPhy (fcb : FdlFCB) (t : FdlTelegram) :
    Except PyError (Nat × List Nat × Bool) :=
  match transceiverSend fcb t with
  | .error e => .error e
  | .ok (_, t2, srd) => cpPhySend (.rawBytes t2.getRawData) srd

end FdlTelegram

/-! ## DP telegram layer (`pyprofibus/dp.py`) -/

namespace DpTelegram

/-- `DpTelegram.SSAP_MS0`: master-to-slave source SAP. -/
def SSAP_MS0 : Nat := 62
/-- `DpTelegram.DSAP_GLOBAL_CONTROL`. -/
def DSAP_GLOBAL_CONTROL : Nat := 58
/-- `DpTelegram.DSAP_GET_CFG`. -/
def DSAP_GET_CFG : Nat := 59
/-- `DpTelegram.DSAP_SLAVE_DIAG`. -/
def DSAP_SLAVE_DIAG : Nat := 60
/-- `DpTelegram.DSAP_SET_PRM`. -/
def DSAP_SET_PRM : Nat := 61
/-- `DpTelegram.DSAP_CHK_CFG`. -/
def DSAP_CHK_CFG : Nat := 62

end DpTelegram

/-- The base fields of `DpTelegram.__init__` (`da`, `sa`, `fc`, `dsap`,
`ssap`).  The payload (`getDU()`) is passed separately where needed, since
the Python subclasses override `getDU`. -/
structure DpTelegramBase where
  da : Option Nat
  sa : Option Nat
  fc : Nat
  dsap : Option Nat
  ssap : Option Nat
deriving Repr, DecidableEq

namespace DpTelegram

open FdlTelegram

/-- `DpTelegram.toFdlTelegram`: wrap a DP telegram (with data unit `du`)
into an FDL telegram.  An empty effective DU yields SD1, an 8-byte one
SD3, anything else SD2. -/
def toFdlTelegram (b : DpTelegramBase) (du : List Nat) :
    Except PyError FdlTelegram :=
  let dae : List Nat := match b.dsap with | none => [] | some d => [d]
  let sae : List Nat := match b.ssap with | none => [] | some s => [s]
  let le := du.length + dae.length + sae.length
  if le = 0 then
    .ok (stat0 b.da b.sa b.fc)
  else if le = 8 then
    stat8 b.da b.sa b.fc dae sae du
  else
    varTg b.da b.sa b.fc dae sae du

/-- `DpTelegram.extractSAP`: first byte of the extension chain without the
`AE_SEGMENT` bit, masked to the SAP number; `None` when the chain is empty
or all bytes are segment addresses. -/
def extractSAP : List Nat → Option Nat
  | [] => none
  | b :: rest =>
    if Nat.land b 0x40 = 0 then some (Nat.land b 0x3F)
    else extractSAP rest

/-- Python truthiness of an optional SAP number: `None` and `0` are both
falsy.  This is exactly the test `if not dsap:` performs in
`DpTelegram.fromFdlTelegram`. -/
def pyTruthy (o : Option Nat) : Bool :=
  match o with
  | none => false
  | some n => n ≠ 0

/-- `DpTelegram_SlaveDiag_Req.__init__` base fields (default FC
`FC_SRD_HI | FC_REQ`, DSAP 60, SSAP 62). -/
def slaveDiagReqBase (da sa : Option Nat) : DpTelegramBase :=
  { da := da, sa := sa, fc := Nat.lor FC_SRD_HI FC_REQ,
    dsap := some DSAP_SLAVE_DIAG, ssap := some SSAP_MS0 }

/-- `DpTelegram_DataExchange_Req.__init__` base fields (default FC
`FC_SRD_HI | FC_REQ`, no SAPs). -/
def dataExchangeReqBase (da sa : Option Nat) : DpTelegramBase :=
  { da := da, sa := sa, fc := Nat.lor FC_SRD_HI FC_REQ,
    dsap := none, ssap := none }

end DpTelegram

/-- `DpCfgDataElement`: a `Chk_Cfg` config data element. -/
structure DpCfgDataElement where
  identifier : Nat
  lengthBytes : List Nat
deriving Repr, DecidableEq

namespace DpCfgDataElement

def ID_LEN_MASK : Nat := 0x0F
def ID_TYPE_MASK : Nat := 0x30
def ID_TYPE_SPEC : Nat := 0x00

end DpCfgDataElement

/-- The result of `DpTelegram.fromFdlTelegram`: the receive-side dispatch
returns one of the DP telegram classes (or Python `None` for
`DpTelegram_GetCfg_Con.fromFdlTelegram`, whose body is a `pass` stub). -/
inductive DpRecvTelegram where
  | dataExchangeReq (da sa : Option Nat) (fc : Option Nat) (du : List Nat)
  | dataExchangeCon (da sa : Option Nat) (fc : Option Nat) (du : List Nat)
  | slaveDiagCon (da sa : Option Nat) (fc : Option Nat) (dsap ssap : Option Nat)
      (b0 b1 b2 masterAddr identNumber : Nat)
  | getCfgConNone
  | slaveDiagReq (da sa : Option Nat) (fc : Option Nat) (dsap ssap : Option Nat)
  | setPrmReq (da sa : Option Nat) (fc : Option Nat) (dsap ssap : Option Nat)
      (stationStatus wdFact1 wdFact2 minTSDR identNumber groupIdent : Nat)
      (userPrmData : List Nat)
  | chkCfgReq (da sa : Option Nat) (fc : Option Nat) (dsap ssap : Option Nat)
      (cfgData : List DpCfgDataElement)
deriving Repr, DecidableEq

namespace DpTelegram

open FdlTelegram

/-- `DpTelegram_SlaveDiag_Con.fromFdlTelegram` payload part: reads
`du[0..5]`.  A `None` DU raises `TypeError` (uncaught); a short DU raises
`IndexError`, turned into `DpError`. -/
def slaveDiagConFrom (fdl : FdlTelegram) : Except PyError DpRecvTelegram :=
  match fdl.du with
  | none => .error (.typeError "NoneType object is not subscriptable")
  | some du =>
    if du.length < 6 then
      .error (.dpError "Invalid Slave_Diag telegram format")
    else
      .ok (.slaveDiagCon fdl.da fdl.sa fdl.fc
            (extractSAP fdl.dae) (extractSAP fdl.sae)
            (du.getD 0 0) (du.getD 1 0) (du.getD 2 0) (du.getD 3 0)
            (Nat.lor (Nat.shiftLeft (du.getD 4 0) 8) (du.getD 5 0)))

/-- `DpTelegram_SetPrm_Req.fromFdlTelegram` payload part: reads `du[0..6]`
and takes `du[7:]` as `User_Prm_Data`. -/
def setPrmReqFrom (fdl : FdlTelegram) : Except PyError DpRecvTelegram :=
  match fdl.du with
  | none => .error (.typeError "NoneType object is not subscriptable")
  | some du =>
    if du.length < 7 then
      .error (.dpError "Invalid SetPrm telegram format")
    else
      .ok (.setPrmReq fdl.da fdl.sa fdl.fc
            (extractSAP fdl.dae) (extractSAP fdl.sae)
            (du.getD 0 0) (du.getD 1 0) (du.getD 2 0) (du.getD 3 0)
            (Nat.lor (Nat.shiftLeft (du.getD 4 0) 8) (du.getD 5 0))
            (du.getD 6 0) (du.drop 7))

/-- The parse loop of `DpTelegram_ChkCfg_Req.fromFdlTelegram`: split the DU
into config data elements.  A `SPEC`-type identifier consumes its length
bytes; a short tail raises `DpError`. -/
def parseCfgDataElements (du : List Nat) :
    Except PyError (List DpCfgDataElement) :=
  match du with
  | [] => .ok []
  | iden :: rest =>
    let idenType := Nat.land iden DpCfgDataElement.ID_TYPE_MASK
    if idenType = DpCfgDataElement.ID_TYPE_SPEC then
      let nrBytes := Nat.land iden DpCfgDataElement.ID_LEN_MASK
      let lengthBytes := rest.take nrBytes
      if lengthBytes.length ≠ nrBytes then
        .error (.dpError "Invalid Config identifier")
      else
        match parseCfgDataElements (rest.drop nrBytes) with
        | .error e => .error e
        | .ok elems => .ok (⟨iden, lengthBytes⟩ :: elems)
    else
      match parseCfgDataElements rest with
      | .error e => .error e
      | .ok elems => .ok (⟨iden, []⟩ :: elems)
termination_by du.length
decreasing_by
  all_goals simp [List.length_drop]
  all_goals omega

/-- `DpTelegram_ChkCfg_Req.fromFdlTelegram`. -/
def chkCfgReqFrom (fdl : FdlTelegram) : Except PyError DpRecvTelegram :=
  match fdl.du with
  | none => .ok (.chkCfgReq fdl.da fdl.sa fdl.fc
                  (extractSAP fdl.dae) (extractSAP fdl.sae) [])
  | some du =>
    match parseCfgDataElements du with
    | .error e => .error e
    | .ok elems =>
      .ok (.chkCfgReq fdl.da fdl.sa fdl.fc
            (extractSAP fdl.dae) (extractSAP fdl.sae) elems)

/-- `DpTelegram.fromFdlTelegram(fdl, thisIsMaster)`: dispatch a received
FDL telegram to a DP telegram class.  Presence of DSAP/SSAP is tested with
Python truthiness (`if not dsap:`), so SAP number 0 counts as absent.
Telegrams without (truthy) DSAP are dispatched as `Data_Exchange` by the
`FC_REQ` bit; `fdl.du if fdl.du else ()` makes the DU default to empty. -/
def fromFdlTelegram (fdl : FdlTelegram) (thisIsMaster : Bool) :
    Except PyError DpRecvTelegram :=
  let dsap := extractSAP fdl.dae
  let ssap := extractSAP fdl.sae
  if ¬ pyTruthy dsap then
    if pyTruthy ssap then
      .error (.dpError "Telegram with SSAP, but without DSAP")
    else
      match fdl.fc with
      | none => .error (.typeError "unsupported operand type for &: NoneType")
      | some fc =>
        if Nat.land fc FC_REQ ≠ 0 then
          .ok (.dataExchangeReq fdl.da fdl.sa (some fc) (fdl.du.getD []))
        else
          .ok (.dataExchangeCon fdl.da fdl.sa (some fc) (fdl.du.getD []))
  else if ¬ pyTruthy ssap then
    .error (.dpError "Telegram with DSAP, but without SSAP")
  else if thisIsMaster then
    if dsap = some SSAP_MS0 then
      if ssap = some DSAP_SLAVE_DIAG then slaveDiagConFrom fdl
      else if ssap = some DSAP_GET_CFG then .ok .getCfgConNone
      else .error (.dpError "Unknown SSAP")
    else .error (.dpError "Unknown DSAP")
  else
    if ssap = some SSAP_MS0 then
      if dsap = some DSAP_SLAVE_DIAG then
        .ok (.slaveDiagReq fdl.da fdl.sa fdl.fc dsap ssap)
      else if dsap = some DSAP_SET_PRM then setPrmReqFrom fdl
      else if dsap = some DSAP_CHK_CFG then chkCfgReqFrom fdl
      else .error (.dpError "Unknown DSAP")
    else .error (.dpError "Unknown SSAP")

end DpTelegram

/-! ## DP master (`pyprofibus/dp_master.py`) -/

/-- The static descriptor fields of `DpSlaveDesc` that the modelled
operations consult. -/
structure DpSlaveDescModel where
  slaveAddr : Nat
  identNumber : Nat
  inputSize : Nat
  outputSize : Nat
deriving Repr, DecidableEq

/-- `DpMaster.addSlave(slaveDesc)`: refuse `input_size <= 0`, refuse an
already registered address, otherwise register the slave.  The argument
`registered` is the set of keys of `__slaveDescs`/`__slaveStates` (the two
maps are updated in lock step in the source); a fresh master already holds
the multicast pseudo-slave at address 127. -/
def addSlave (registered : List Nat) (slaveDesc : DpSlaveDescModel) :
    Except PyError (List Nat) :=
  if slaveDesc.inputSize ≤ 0 then
    .error (.dpError "input_size=0 is currently not supported.")
  else if slaveDesc.slaveAddr ∈ registered then
    .error (.dpError "Slave is already registered.")
  else
    .ok (registered ++ [slaveDesc.slaveAddr])

/-- The slave addresses registered by `DpMaster.__init__`: only the
multicast pseudo-slave. -/
def dpMasterInitRegistered : List Nat := [FdlTelegram.ADDRESS_MCAST]

/-- The per-slave runtime fields of `DpSlaveState` that the modelled
operations touch. -/
structure DpSlaveStateModel where
  toSlaveData : Option (List Nat)
  fromSlaveData : Option (List Nat)
deriving Repr, DecidableEq

/-- `DpMaster._setToSlaveData(slaveDesc, data)` (the body of
`DpSlaveDesc.setMasterOutData`): raise `DpError` when a non-`None` `data`
has a length different from the configured `inputSize`, otherwise store it
as the slave's pending out-data.  The `raise` happens before the
assignment, so a failing call leaves the state untouched. -/
def setToSlaveData (slaveDesc : DpSlaveDescModel) (st : DpSlaveStateModel)
    (data : Option (List Nat)) : Except PyError DpSlaveStateModel :=
  match data with
  | some d =>
    if d.length ≠ slaveDesc.inputSize then
      .error (.dpError "The setMasterOutData() data size does not match the slave's configured input_size.")
    else
      .ok { st with toSlaveData := some d }
  | none => .ok { st with toSlaveData := none }

/-- The `while fact1 > 255` loop of `DpSlaveDesc.setWatchdog`: double
`fact2` and halve `fact1` until `fact1` fits, raising `DpError` when
`fact2` overflows 255.  The Python floats stay exact dyadic rationals for
every input this development evaluates the loop on, so `ℚ` is an exact
model of the float arithmetic.  The loop doubles `fact2` starting from 1
and raises at 256, so it runs at most 8 times; `fuel` only serves to make
the recursion structural and is chosen large enough to never run out. -/
def wdLoop (fuel : Nat) (fact1 : ℚ) (fact2 : Nat) :
    Except PyError (ℚ × Nat) :=
  match fuel with
  | 0 => .error (.dpError "unreachable: watchdog loop fuel exhausted")
  | fuel + 1 =>
    if fact1 > 255 then
      let fact2a := fact2 * 2
      let fact1a := fact1 / 2
      if fact2a > 255 then
        .error (.dpError "Watchdog timeout is too big")
      else
        wdLoop fuel fact1a fact2a
    else
      .ok (fact1, fact2)

/-- The factor computation of `DpSlaveDesc.setWatchdog(timeoutMS)` for a
positive timeout: `fact1 = timeoutMS / 10`, find `fact2` by successive
doubling, then `fact1 = min(255, ceil(fact1))`. -/
def setWatchdogFactors (timeoutMS : Nat) : Except PyError (Nat × Nat) :=
  match wdLoop 16 ((timeoutMS : ℚ) / 10) 1 with
  | .error e => .error e
  | .ok (fact1, fact2) => .ok (min 255 (Int.toNat ⌈fact1⌉), fact2)

/-- The master-global slow-down fields of `DpMaster`
(`__slowDown`, `__slowDownUntil`, `__slowDownFact`).  Time is the
monotonic clock in seconds, modelled as `ℚ`. -/
structure MasterRunState where
  slowDown : Bool
  slowDownUntil : ℚ
  slowDownFact : Nat
deriving Repr, DecidableEq

/-- The slow-down fields as `DpMaster.__init__` leaves them. -/
def masterRunInit (now : ℚ) : MasterRunState :=
  { slowDown := false, slowDownUntil := now, slowDownFact := 1 }

/-- `DpMaster.__masterSlowDown`: activate the slow-down until
`now + 0.01 * fact`, then raise the factor by one, saturating at 10. -/
def masterSlowDown (now : ℚ) (s : MasterRunState) : MasterRunState :=
  { slowDown := true
    slowDownUntil := now + (1 / 100) * s.slowDownFact
    slowDownFact := min (s.slowDownFact + 1) 10 }

/-- The error/success handling of `DpMaster.__send`: a `ProfibusError`
from the transceiver triggers `__masterSlowDown` and reports failure; a
successful hand-off resets the slow-down factor to 1.  (A non-Profibus
exception would propagate out of `run()`; see `cpPhySend`.) -/
def masterSendOutcome (now : ℚ) (s : MasterRunState) (sendOk : Bool) :
    MasterRunState × Bool :=
  if sendOk then
    ({ s with slowDownFact := 1 }, true)
  else
    (masterSlowDown now s, false)

/-- The slow-down gate at the top of `DpMaster.run`: while the slow-down is
active and the deadline has not passed, `run()` returns `None` without
running any slave state-machine handler.  The returned `Bool` tells
whether `run()` proceeds to the state machine. -/
def runSlowDownGate (now : ℚ) (s : MasterRunState) : MasterRunState × Bool :=
  if s.slowDown then
    if now < s.slowDownUntil then
      (s, false)
    else
      ({ s with slowDown := false }, true)
  else
    (s, true)

/-! ## Well-formed frames and the codec round trip -/

namespace FdlTelegram

/-- A well-formed address extension chain as `__duExtractAe` consumes it:
non-empty, every byte except the last carries `AE_EXT`, the last one does
not. -/
def chainOk : List Nat → Bool
  | [] => false
  | [b] => Nat.land b AE_EXT == 0
  | b :: rest => (Nat.land b AE_EXT != 0) && chainOk rest

/-- All entries are bytes. -/
def byteListOk (l : List Nat) : Prop := ∀ b ∈ l, b < 256

/-- A DAE/SAE field of a telegram: either absent or a well-formed chain of
bytes. -/
def aeOk (ae : List Nat) : Prop :=
  ae = [] ∨ (chainOk ae = true ∧ byteListOk ae)

/-- A valid SD1 telegram: what `FdlTelegram_stat0` builds from 7-bit
addresses, a byte FC. -/
def validSd1 (t : FdlTelegram) : Prop :=
  ∃ da sa fc, da < 128 ∧ sa < 128 ∧ fc < 256 ∧
    t = stat0 (some da) (some sa) fc

/-- A valid SD2 telegram: what `FdlTelegram_var` builds from 7-bit
addresses, a byte FC, well-formed extension chains and a DU of bytes, with
the real DU length within the SD2 limit. -/
def validSd2 (t : FdlTelegram) : Prop :=
  ∃ da sa fc dae sae du, da < 128 ∧ sa < 128 ∧ fc < 256 ∧
    aeOk dae ∧ aeOk sae ∧ byteListOk du ∧
    du.length + dae.length + sae.length ≤ 246 ∧
    t = varBase (some da) (some sa) fc dae sae du

/-- A valid SD3 telegram: as SD2 but with real DU length exactly 8
(`FdlTelegram_stat8`). -/
def validSd3 (t : FdlTelegram) : Prop :=
  ∃ da sa fc dae sae du, da < 128 ∧ sa < 128 ∧ fc < 256 ∧
    aeOk dae ∧ aeOk sae ∧ byteListOk du ∧
    du.length + dae.length + sae.length = 8 ∧
    t = stat8Base (some da) (some sa) fc dae sae du

/-- A valid SD4 token telegram (`FdlTelegram_token`). -/
def validSd4 (t : FdlTelegram) : Prop :=
  ∃ da sa, da < 128 ∧ sa < 128 ∧ t = token (some da) (some sa)

/-- A valid short-ACK telegram (`FdlTelegram_ack`). -/
def validSC (t : FdlTelegram) : Prop := t = ack

/-- A valid telegram of any of the five start-delimiter classes. -/
def validTelegram (t : FdlTelegram) : Prop :=
  validSC t ∨ validSd1 t ∨ validSd2 t ∨ validSd3 t ∨ validSd4 t

/-- A well-formed raw frame: the wire encoding of some valid telegram. -/
def wellFormedFrame (b : List Nat) : Prop :=
  ∃ t, validTelegram t ∧ getRawData t = b

/-- The number of leading bytes `getSizeFromRaw` must see before it can
answer: the two LE bytes are needed for SD2, the start delimiter alone
suffices for every other class. -/
def sizeProbeHdr (b : List Nat) : Nat :=
  if b.get? 0 = some SD2 then 3 else 1

end FdlTelegram

/-- `DpTransceiver.send(fcb, telegram)`:
`self.fdlTrans.send(fcb, telegram.toFdlTelegram())`, modelled up to the
telegram rewriting done by `FdlTransceiver.send` (the final PHY hand-off
is `transceiverSendToPhy`; see `cpPhySend`). -/
def dpTransceiverSend (fcb : FdlFCB) (b : DpTelegramBase) (du : List Nat) :
    Except PyError (FdlFCB × FdlTelegram × Bool) :=
  match DpTelegram.toFdlTelegram b du with
  | .error e => .error e
  | .ok t => FdlTelegram.transceiverSend fcb t

/-- The slow-down state after `n` consecutive severe errors, all at time
`now`, starting from a fresh master. -/
def slowDownIter (now : ℚ) : Nat → MasterRunState
  | 0 => masterRunInit now
  | n + 1 => masterSlowDown now (slowDownIter now n)

/-- Decidable equality for `Except` results, used to evaluate the codec on
concrete frames. -/
instance exceptDecEq {ε α : Type} [DecidableEq ε] [DecidableEq α] :
    DecidableEq (Except ε α) := fun x y =>
  match x, y with
  | .ok a, .ok b =>
    if h : a = b then isTrue (by rw [h])
    else isFalse (fun hh => by cases hh; exact h rfl)
  | .error a, .error b =>
    if h : a = b then isTrue (by rw [h])
    else isFalse (fun hh => by cases hh; exact h rfl)
  | .ok _, .error _ => isFalse (fun hh => by cases hh)
  | .error _, .ok _ => isFalse (fun hh => by cases hh)

namespace FdlTelegram

theorem land127_of_lt {a : Nat} (h : a < 128) : Nat.land a 127 = a :=
  (by decide : ∀ x : Nat, x < 128 → Nat.land x 127 = x) a h

theorem land128_of_lt {a : Nat} (h : a < 128) : Nat.land a 128 = 0 :=
  (by decide : ∀ x : Nat, x < 128 → Nat.land x 128 = 0) a h

theorem lor128_land128 {a : Nat} (h : a < 128) :
    Nat.land (Nat.lor a 128) 128 = 128 :=
  (by decide : ∀ x : Nat, x < 128 → Nat.land (Nat.lor x 128) 128 = 128) a h

theorem lor128_land127 {a : Nat} (h : a < 128) :
    Nat.land (Nat.lor a 128) 127 = a :=
  (by decide : ∀ x : Nat, x < 128 → Nat.land (Nat.lor x 128) 127 = x) a h

theorem get?_cons4 (c0 c1 c2 c3 : Nat) (tail : List Nat) (i : Nat) :
    (c0 :: c1 :: c2 :: c3 :: tail).get? (i + 4) = tail.get? i := rfl

theorem get?_cons7 (c0 c1 c2 c3 c4 c5 c6 : Nat) (tail : List Nat) (i : Nat) :
    (c0 :: c1 :: c2 :: c3 :: c4 :: c5 :: c6 :: tail).get? (i + 7) =
      tail.get? i := rfl

theorem drop_cons4 (c0 c1 c2 c3 : Nat) (tail : List Nat) :
    (c0 :: c1 :: c2 :: c3 :: tail).drop 4 = tail := rfl

theorem drop_cons7 (c0 c1 c2 c3 c4 c5 c6 : Nat) (tail : List Nat) :
    (c0 :: c1 :: c2 :: c3 :: c4 :: c5 :: c6 :: tail).drop 7 = tail := rfl

/-- `__duExtractAe` recovers a well-formed chain from the front of the
DU. -/
theorem duExtractAe_chain (ae rest : List Nat) (h : chainOk ae = true) :
    duExtractAe (ae ++ rest) = .ok (rest, ae) := by
  induction ae with
  | nil => simp [chainOk] at h
  | cons b tail ih =>
    cases tail with
    | nil =>
      simp only [chainOk, beq_iff_eq] at h
      simp [duExtractAe, h]
    | cons c t2 =>
      simp only [chainOk, Bool.and_eq_true, bne_iff_ne, ne_eq] at h
      obtain ⟨h1, h2⟩ := h
      have ih2 := ih h2
      simp only [List.cons_append] at ih2 ⊢
      rw [duExtractAe, if_pos h1, ih2]

/-- Shape of the wire encoding of an SD1 telegram. -/
theorem getRawData_stat0 (da sa fc : Nat) (hda : da < 128) (hsa : sa < 128) :
    getRawData (stat0 (some da) (some sa) fc) =
      [SD1, da, sa, fc, calcFCS [da, sa, fc], ED] := by
  simp [getRawData, stat0, mkTelegram, getRealDuLen, ADDRESS_MASK,
    land127_of_lt hda, land127_of_lt hsa]

/-- Shape of the wire encoding of an SD4 token telegram. -/
theorem getRawData_token (da sa : Nat) (hda : da < 128) (hsa : sa < 128) :
    getRawData (token (some da) (some sa)) = [SD4, da, sa] := by
  simp [getRawData, token, mkTelegram, ADDRESS_MASK,
    land127_of_lt hda, land127_of_lt hsa]

/-- Shape of the wire encoding of the SC short acknowledge. -/
theorem getRawData_ack : getRawData ack = [SC] := rfl

/-- Shape of the wire encoding of an SD2 telegram. -/
theorem getRawData_varBase (da sa fc : Nat) (dae sae du : List Nat)
    (hda : da < 128) (hsa : sa < 128) :
    getRawData (varBase (some da) (some sa) fc dae sae du) =
      SD2 :: (3 + (du.length + dae.length + sae.length)) ::
      (3 + (du.length + dae.length + sae.length)) :: SD2 ::
      (if dae.isEmpty then da else Nat.lor da 128) ::
      (if sae.isEmpty then sa else Nat.lor sa 128) :: fc ::
      (dae ++ sae ++ du ++
        [calcFCS ((if dae.isEmpty then da else Nat.lor da 128) ::
                  (if sae.isEmpty then sa else Nat.lor sa 128) :: fc ::
                  (dae ++ sae ++ du)), ED]) := by
  simp [getRawData, varBase, mkTelegram, getRealDuLen, ADDRESS_MASK,
    ADDRESS_EXT, land127_of_lt hda, land127_of_lt hsa]

/-- Shape of the wire encoding of an SD3 telegram. -/
theorem getRawData_stat8Base (da sa fc : Nat) (dae sae du : List Nat)
    (hda : da < 128) (hsa : sa < 128) :
    getRawData (stat8Base (some da) (some sa) fc dae sae du) =
      SD3 ::
      (if dae.isEmpty then da else Nat.lor da 128) ::
      (if sae.isEmpty then sa else Nat.lor sa 128) :: fc ::
      (dae ++ sae ++ du ++
        [calcFCS ((if dae.isEmpty then da else Nat.lor da 128) ::
                  (if sae.isEmpty then sa else Nat.lor sa 128) :: fc ::
                  (dae ++ sae ++ du)), ED]) := by
  simp [getRawData, stat8Base, mkTelegram, getRealDuLen, ADDRESS_MASK,
    ADDRESS_EXT, land127_of_lt hda, land127_of_lt hsa]

/-- Decoding inverts encoding on valid SD1 telegrams. -/
theorem fromRawData_stat0 (da sa fc : Nat) (hda : da < 128) (hsa : sa < 128) :
    fromRawData (getRawData (stat0 (some da) (some sa) fc)) =
      .ok (stat0 (some da) (some sa) fc) := by
  rw [getRawData_stat0 da sa fc hda hsa]
  simp [fromRawData, pySlice, SD1, SD2, SD3, SD4, SC, ED, stat0, mkTelegram]

/-- Decoding inverts encoding on valid SD4 telegrams. -/
theorem fromRawData_token (da sa : Nat) (hda : da < 128) (hsa : sa < 128) :
    fromRawData (getRawData (token (some da) (some sa))) =
      .ok (token (some da) (some sa)) := by
  rw [getRawData_token da sa hda hsa]
  simp [fromRawData, SD1, SD2, SD3, SD4, SC, token, mkTelegram]

/-- Decoding inverts encoding on the SC short acknowledge. -/
theorem fromRawData_ack : fromRawData (getRawData ack) = .ok ack := by
  decide

theorem take_cons3 (a b c : Nat) (l : List Nat) (n : Nat) :
    (a :: b :: c :: l).take (n + 3) = a :: b :: c :: l.take n := rfl

theorem drop_cons1 (a : Nat) (l : List Nat) : (a :: l).drop 1 = l := rfl

/-- Decoding an encoded SD2 frame reduces to the DAE/SAE extraction on the
raw DU region. -/
theorem fromRawData_sd2_frame (daB saB fc : Nat) (Y : List Nat)
    (hY : Y.length ≤ 246) :
    fromRawData (SD2 :: (3 + Y.length) :: (3 + Y.length) :: SD2 :: daB ::
        saB :: fc :: (Y ++ [calcFCS (daB :: saB :: fc :: Y), ED])) =
      sd2Dispatch daB saB fc Y := by
  generalize hF : calcFCS (daB :: saB :: fc :: Y) = F
  simp only [fromRawData, List.get?_cons_zero, List.get?_cons_succ]
  rw [if_neg (show ¬((SD2 : Nat) = SD1) by decide)]
  simp only [if_true]
  rw [if_neg (show ¬(3 + Y.length ≠ 3 + Y.length) by simp)]
  rw [if_neg (show ¬(3 + Y.length < 3 ∨ 3 + Y.length > 249) by omega)]
  rw [if_neg (show ¬((SD2 : Nat) ≠ SD2) by simp)]
  rw [show (5 + (3 + Y.length)) = (Y.length + 1) + 7 from by omega]
  rw [get?_cons7]
  rw [List.get?_append_right (by omega : Y.length ≤ Y.length + 1)]
  rw [show Y.length + 1 - Y.length = 1 from by omega]
  simp only [List.get?_cons_succ, List.get?_cons_zero]
  rw [if_neg (show ¬((ED : Nat) ≠ ED) by simp)]
  rw [show (4 + (3 + Y.length)) = Y.length + 7 from by omega]
  rw [get?_cons7]
  rw [List.get?_append_right (le_refl _)]
  rw [Nat.sub_self]
  simp only [List.get?_cons_zero]
  have hslice : pySlice (SD2 :: (3 + Y.length) :: (3 + Y.length) :: SD2 ::
      daB :: saB :: fc :: (Y ++ [F, ED])) 4 (Y.length + 7) =
      daB :: saB :: fc :: Y := by
    simp only [pySlice]
    rw [show Y.length + 7 - 4 = Y.length + 3 from by omega]
    rw [drop_cons4, take_cons3, List.take_left' rfl]
  rw [hslice, hF]
  rw [if_neg (show ¬(F ≠ F) by simp)]
  rw [show (3 + Y.length - 3) = Y.length from by omega]
  have hslice2 : pySlice (SD2 :: (3 + Y.length) :: (3 + Y.length) :: SD2 ::
      daB :: saB :: fc :: (Y ++ [F, ED])) 7 (7 + Y.length) = Y := by
    simp only [pySlice]
    rw [show 7 + Y.length - 7 = Y.length from by omega]
    rw [drop_cons7, List.take_left' rfl]
  rw [hslice2]
  rw [if_neg (show ¬(Y.length ≠ Y.length) by simp)]

/-- Decoding an encoded SD3 frame reduces to the DAE/SAE extraction on the
raw DU region. -/
theorem fromRawData_sd3_frame (daB saB fc : Nat) (Y : List Nat)
    (hY : Y.length = 8) :
    fromRawData (SD3 :: daB :: saB :: fc ::
        (Y ++ [calcFCS (daB :: saB :: fc :: Y), ED])) =
      sd3Dispatch daB saB fc Y := by
  generalize hF : calcFCS (daB :: saB :: fc :: Y) = F
  simp only [fromRawData, List.get?_cons_zero, List.get?_cons_succ]
  rw [if_neg (show ¬((SD3 : Nat) = SD1) by decide)]
  rw [if_neg (show ¬((SD3 : Nat) = SD2) by decide)]
  simp only [if_true]
  rw [if_neg (show ¬((SD3 :: daB :: saB :: fc :: (Y ++ [F, ED])).length ≠ 14)
        by simp [hY])]
  rw [List.get?_append_right (by omega : Y.length ≤ 9)]
  rw [show 9 - Y.length = 1 from by omega]
  simp only [List.get?_cons_succ, List.get?_cons_zero]
  rw [if_neg (show ¬((ED : Nat) ≠ ED) by simp)]
  rw [List.get?_append_right (by omega : Y.length ≤ 8)]
  rw [show 8 - Y.length = 0 from by omega]
  simp only [List.get?_cons_zero]
  have hslice : pySlice (SD3 :: daB :: saB :: fc :: (Y ++ [F, ED])) 1 12 =
      daB :: saB :: fc :: Y := by
    simp only [pySlice]
    rw [show (12 : Nat) - 1 = 8 + 3 from by omega]
    rw [drop_cons1, take_cons3, List.take_left' hY]
  rw [hslice, hF]
  rw [if_neg (show ¬(F ≠ F) by simp)]
  have hslice2 : pySlice (SD3 :: daB :: saB :: fc :: (Y ++ [F, ED])) 4 12 =
      Y := by
    simp only [pySlice]
    rw [show (12 : Nat) - 4 = 8 from by omega]
    rw [drop_cons4, List.take_left' hY]
  rw [hslice2]

/-- `varTg` succeeds when the real DU length is within the SD2 limit. -/
theorem varTg_ok (da sa : Option Nat) (fc : Nat) (dae sae du : List Nat)
    (h : du.length + dae.length + sae.length ≤ 246) :
    varTg da sa fc dae sae du = .ok (varBase da sa fc dae sae du) := by
  simp only [varTg, varBase, mkTelegram, getRealDuLen]
  rw [if_neg (by simp; omega)]

/-- `stat8` succeeds when the real DU length is exactly 8. -/
theorem stat8_ok (da sa : Option Nat) (fc : Nat) (dae sae du : List Nat)
    (h : du.length + dae.length + sae.length = 8) :
    stat8 da sa fc dae sae du = .ok (stat8Base da sa fc dae sae du) := by
  simp only [stat8, stat8Base, mkTelegram, getRealDuLen]
  rw [if_neg (by simp; omega)]

/-- The constructor's `ADDRESS_MASK` masking removes an `ADDRESS_EXT` bit
that the raw DA byte carried. -/
theorem mk_da_lor128 (da : Nat) (h : da < 128) (sa : Option Nat) (fc : Nat)
    (sd : Nat) (haveLE : Bool) (dae sae : List Nat) (du : Option (List Nat))
    (haveFCS : Bool) (ed : Option Nat) :
    mkTelegram sd haveLE (some (Nat.lor da 128)) sa fc dae sae du haveFCS ed =
      mkTelegram sd haveLE (some da) sa fc dae sae du haveFCS ed := by
  simp [mkTelegram, ADDRESS_MASK, lor128_land127 h, land127_of_lt h]

/-- The constructor's `ADDRESS_MASK` masking removes an `ADDRESS_EXT` bit
that the raw SA byte carried. -/
theorem mk_sa_lor128 (sa : Nat) (h : sa < 128) (da : Option Nat) (fc : Nat)
    (sd : Nat) (haveLE : Bool) (dae sae : List Nat) (du : Option (List Nat))
    (haveFCS : Bool) (ed : Option Nat) :
    mkTelegram sd haveLE da (some (Nat.lor sa 128)) fc dae sae du haveFCS ed =
      mkTelegram sd haveLE da (some sa) fc dae sae du haveFCS ed := by
  simp [mkTelegram, ADDRESS_MASK, lor128_land127 h, land127_of_lt h]

/-- Decoding inverts encoding on valid SD2 telegrams. -/
theorem fromRawData_varBase (da sa fc : Nat) (dae sae du : List Nat)
    (hda : da < 128) (hsa : sa < 128)
    (hdae : aeOk dae) (hsae : aeOk sae)
    (hlen : du.length + dae.length + sae.length ≤ 246) :
    fromRawData (getRawData (varBase (some da) (some sa) fc dae sae du)) =
      .ok (varBase (some da) (some sa) fc dae sae du) := by
  rw [getRawData_varBase da sa fc dae sae du hda hsa]
  have hYlen : (dae ++ sae ++ du).length =
      du.length + dae.length + sae.length := by
    simp [List.length_append]
    omega
  rw [← hYlen]
  rw [fromRawData_sd2_frame _ _ _ _ (by omega : (dae ++ sae ++ du).length ≤ 246)]
  rcases hdae with hdaeE | ⟨hchainD, _⟩
  · subst hdaeE
    rcases hsae with hsaeE | ⟨hchainS, _⟩
    · subst hsaeE
      simp only [List.isEmpty_nil, if_true, List.nil_append, sd2Dispatch]
      rw [if_neg (by simp [ADDRESS_EXT, land128_of_lt hda])]
      rw [if_neg (by simp [ADDRESS_EXT, land128_of_lt hsa])]
      exact varTg_ok _ _ _ _ _ _
        (by simp only [List.length_nil] at hlen ⊢; omega)
    · cases sae with
      | nil => simp [chainOk] at hchainS
      | cons s ss =>
        simp only [List.isEmpty_nil, List.isEmpty_cons, if_true, if_false,
          Bool.false_eq_true, List.nil_append, sd2Dispatch]
        rw [if_neg (by simp [ADDRESS_EXT, land128_of_lt hda])]
        rw [if_pos (by simp [ADDRESS_EXT, lor128_land128 hsa])]
        rw [duExtractAe_chain (s :: ss) du hchainS]
        dsimp only
        rw [varTg_ok _ _ _ _ _ _
          (by simp only [List.length_nil, List.length_cons] at hlen ⊢; omega)]
        simp only [varBase, mk_sa_lor128 sa hsa]
  · cases dae with
    | nil => simp [chainOk] at hchainD
    | cons d ds =>
      rcases hsae with hsaeE | ⟨hchainS, _⟩
      · subst hsaeE
        simp only [List.isEmpty_nil, List.isEmpty_cons, if_true, if_false,
          Bool.false_eq_true, List.nil_append, List.append_nil, sd2Dispatch]
        rw [if_pos (by simp [ADDRESS_EXT, lor128_land128 hda])]
        rw [duExtractAe_chain (d :: ds) du hchainD]
        dsimp only
        rw [if_neg (by simp [ADDRESS_EXT, land128_of_lt hsa])]
        rw [varTg_ok _ _ _ _ _ _
          (by simp only [List.length_nil, List.length_cons] at hlen ⊢; omega)]
        simp only [varBase, mk_da_lor128 da hda]
      · cases sae with
        | nil => simp [chainOk] at hchainS
        | cons s ss =>
          simp only [List.isEmpty_cons, if_false, Bool.false_eq_true,
            sd2Dispatch]
          rw [if_pos (by simp [ADDRESS_EXT, lor128_land128 hda])]
          rw [List.append_assoc]
          rw [duExtractAe_chain (d :: ds) ((s :: ss) ++ du) hchainD]
          dsimp only
          rw [if_pos (by simp [ADDRESS_EXT, lor128_land128 hsa])]
          rw [duExtractAe_chain (s :: ss) du hchainS]
          dsimp only
          rw [varTg_ok _ _ _ _ _ _
            (by simp only [List.length_cons] at hlen ⊢; omega)]
          simp only [varBase, mk_da_lor128 da hda, mk_sa_lor128 sa hsa]

/-- Decoding inverts encoding on valid SD3 telegrams. -/
theorem fromRawData_stat8Base (da sa fc : Nat) (dae sae du : List Nat)
    (hda : da < 128) (hsa : sa < 128)
    (hdae : aeOk dae) (hsae : aeOk sae)
    (hlen : du.length + dae.length + sae.length = 8) :
    fromRawData (getRawData (stat8Base (some da) (some sa) fc dae sae du)) =
      .ok (stat8Base (some da) (some sa) fc dae sae du) := by
  rw [getRawData_stat8Base da sa fc dae sae du hda hsa]
  have hYlen : (dae ++ sae ++ du).length = 8 := by
    simp [List.length_append]
    omega
  rw [fromRawData_sd3_frame _ _ _ _ hYlen]
  rcases hdae with hdaeE | ⟨hchainD, _⟩
  · subst hdaeE
    rcases hsae with hsaeE | ⟨hchainS, _⟩
    · subst hsaeE
      simp only [List.isEmpty_nil, if_true, List.nil_append, sd3Dispatch]
      rw [if_neg (by simp [ADDRESS_EXT, land128_of_lt hda])]
      rw [if_neg (by simp [ADDRESS_EXT, land128_of_lt hsa])]
      exact stat8_ok _ _ _ _ _ _
        (by simp only [List.length_nil] at hlen ⊢; omega)
    · cases sae with
      | nil => simp [chainOk] at hchainS
      | cons s ss =>
        simp only [List.isEmpty_nil, List.isEmpty_cons, if_true, if_false,
          Bool.false_eq_true, List.nil_append, sd3Dispatch]
        rw [if_neg (by simp [ADDRESS_EXT, land128_of_lt hda])]
        rw [if_pos (by simp [ADDRESS_EXT, lor128_land128 hsa])]
        rw [duExtractAe_chain (s :: ss) du hchainS]
        dsimp only
        rw [stat8_ok _ _ _ _ _ _
          (by simp only [List.length_nil, List.length_cons] at hlen ⊢; omega)]
        simp only [stat8Base, mk_sa_lor128 sa hsa]
  · cases dae with
    | nil => simp [chainOk] at hchainD
    | cons d ds =>
      rcases hsae with hsaeE | ⟨hchainS, _⟩
      · subst hsaeE
        simp only [List.isEmpty_nil, List.isEmpty_cons, if_true, if_false,
          Bool.false_eq_true, List.nil_append, List.append_nil, sd3Dispatch]
        rw [if_pos (by simp [ADDRESS_EXT, lor128_land128 hda])]
        rw [duExtractAe_chain (d :: ds) du hchainD]
        dsimp only
        rw [if_neg (by simp [ADDRESS_EXT, land128_of_lt hsa])]
        rw [stat8_ok _ _ _ _ _ _
          (by simp only [List.length_nil, List.length_cons] at hlen ⊢; omega)]
        simp only [stat8Base, mk_da_lor128 da hda]
      · cases sae with
        | nil => simp [chainOk] at hchainS
        | cons s ss =>
          simp only [List.isEmpty_cons, if_false, Bool.false_eq_true,
            sd3Dispatch]
          rw [if_pos (by simp [ADDRESS_EXT, lor128_land128 hda])]
          rw [List.append_assoc]
          rw [duExtractAe_chain (d :: ds) ((s :: ss) ++ du) hchainD]
          dsimp only
          rw [if_pos (by simp [ADDRESS_EXT, lor128_land128 hsa])]
          rw [duExtractAe_chain (s :: ss) du hchainS]
          dsimp only
          rw [stat8_ok _ _ _ _ _ _
            (by simp only [List.length_cons] at hlen ⊢; omega)]
          simp only [stat8Base, mk_da_lor128 da hda, mk_sa_lor128 sa hsa]

/-- Decode ∘ encode is the identity on every valid telegram. -/
theorem fromRawData_getRawData (t : FdlTelegram) (h : validTelegram t) :
    fromRawData (getRawData t) = .ok t := by
  rcases h with hsc | hsd1 | hsd2 | hsd3 | hsd4
  · rw [hsc]
    exact fromRawData_ack
  · obtain ⟨da, sa, fc, hda, hsa, _, ht⟩ := hsd1
    rw [ht]
    exact fromRawData_stat0 da sa fc hda hsa
  · obtain ⟨da, sa, fc, dae, sae, du, hda, hsa, _, hdae, hsae, _, hlen, ht⟩ :=
      hsd2
    rw [ht]
    exact fromRawData_varBase da sa fc dae sae du hda hsa hdae hsae hlen
  · obtain ⟨da, sa, fc, dae, sae, du, hda, hsa, _, hdae, hsae, _, hlen, ht⟩ :=
      hsd3
    rw [ht]
    exact fromRawData_stat8Base da sa fc dae sae du hda hsa hdae hsae hlen
  · obtain ⟨da, sa, hda, hsa, ht⟩ := hsd4
    rw [ht]
    exact fromRawData_token da sa hda hsa

/-- `getSizeFromRaw` answers 6 as soon as the first byte is SD1. -/
theorem getSizeFromRaw_sd1 (data : List Nat) (h : data.get? 0 = some SD1) :
    getSizeFromRaw data = .ok 6 := by
  rw [List.get?_eq_getElem?] at h
  simp [getSizeFromRaw, h]

/-- `getSizeFromRaw` answers 14 as soon as the first byte is SD3. -/
theorem getSizeFromRaw_sd3 (data : List Nat) (h : data.get? 0 = some SD3) :
    getSizeFromRaw data = .ok 14 := by
  rw [List.get?_eq_getElem?] at h
  simp [getSizeFromRaw, h, SD3, SD1]

/-- `getSizeFromRaw` answers 3 as soon as the first byte is SD4. -/
theorem getSizeFromRaw_sd4 (data : List Nat) (h : data.get? 0 = some SD4) :
    getSizeFromRaw data = .ok 3 := by
  rw [List.get?_eq_getElem?] at h
  simp [getSizeFromRaw, h, SD4, SD1, SD3]

/-- `getSizeFromRaw` answers 1 as soon as the first byte is SC. -/
theorem getSizeFromRaw_sc (data : List Nat) (h : data.get? 0 = some SC) :
    getSizeFromRaw data = .ok 1 := by
  rw [List.get?_eq_getElem?] at h
  simp [getSizeFromRaw, h, SC, SD1, SD3, SD4]

/-- `getSizeFromRaw` answers `LE + 6` once the SD2 header with a valid,
matching LE pair is available. -/
theorem getSizeFromRaw_sd2 (data : List Nat) (le : Nat)
    (h0 : data.get? 0 = some SD2) (h1 : data.get? 1 = some le)
    (h2 : data.get? 2 = some le) (hlo : 3 ≤ le) (hhi : le ≤ 249) :
    getSizeFromRaw data = .ok (le + 6) := by
  simp only [getSizeFromRaw, h0, h1, h2]
  simp only [if_true]
  rw [if_neg (show ¬(le ≠ le) by simp)]
  rw [if_neg (show ¬(le < 3 ∨ le > 249) by omega)]
  simp [SD1, SD2, SD3, SD4, SC]

/-- An SD2 frame whose repeated LE bytes differ is rejected by the
decoder. -/
theorem fromRawData_sd2_le_mismatch (data : List Nat) (le le2 : Nat)
    (h0 : data.get? 0 = some SD2) (h1 : data.get? 1 = some le)
    (h2 : data.get? 2 = some le2) (hne : le2 ≠ le) :
    fromRawData data = .error (.fdlError "Repeated length field mismatch") := by
  simp only [fromRawData, h0, h1, h2, if_true]
  rw [if_pos hne]
  simp [SD1, SD2, SD3, SD4, SC]

/-- An SD2 frame whose LE value is outside the accepted range is rejected
by the decoder. -/
theorem fromRawData_sd2_le_range (data : List Nat) (le le2 : Nat)
    (h0 : data.get? 0 = some SD2) (h1 : data.get? 1 = some le)
    (h2 : data.get? 2 = some le2) (heq : le2 = le)
    (hrange : le < 3 ∨ le > 249) :
    fromRawData data = .error (.fdlError "Invalid LE field") := by
  simp only [fromRawData, h0, h1, h2, if_true]
  rw [if_neg (show ¬(le2 ≠ le) by simp [heq])]
  rw [if_pos hrange]
  simp [SD1, SD2, SD3, SD4, SC]

/-- An SD2 buffer whose repeated LE bytes differ is rejected by the size
probe. -/
theorem getSizeFromRaw_sd2_le_mismatch (data : List Nat) (le le2 : Nat)
    (h0 : data.get? 0 = some SD2) (h1 : data.get? 1 = some le)
    (h2 : data.get? 2 = some le2) (hne : le2 ≠ le) :
    getSizeFromRaw data =
      .error (.fdlError "Repeated length field mismatch") := by
  simp only [getSizeFromRaw, h0, h1, h2, if_true]
  rw [if_pos hne]
  simp [SD1, SD2, SD3, SD4, SC]

/-- An SD2 buffer whose LE value is outside the accepted range is rejected
by the size probe. -/
theorem getSizeFromRaw_sd2_le_range (data : List Nat) (le le2 : Nat)
    (h0 : data.get? 0 = some SD2) (h1 : data.get? 1 = some le)
    (h2 : data.get? 2 = some le2) (heq : le2 = le)
    (hrange : le < 3 ∨ le > 249) :
    getSizeFromRaw data = .error (.fdlError "Invalid LE field") := by
  simp only [getSizeFromRaw, h0, h1, h2, if_true]
  rw [if_neg (show ¬(le2 ≠ le) by simp [heq])]
  rw [if_pos hrange]
  simp [SD1, SD2, SD3, SD4, SC]

end FdlTelegram

/-! ## The claims -/

open FdlTelegram

/-- C2: Round-trip identity of the FDL codec: for every well-formed frame
`b` of each start-delimiter class — SC (1 byte), SD1 (6 bytes), SD3
(14 bytes), SD2 (including LE=4 and LE=249), SD4 (3 bytes) — decoding `b`
with `fromRawData` and re-encoding the resulting telegram with
`getRawData` yields exactly `b`. -/
theorem claimC2_fdl_roundtrip (b : List Nat) (h : wellFormedFrame b) :
    ∃ t, fromRawData b = .ok t ∧ getRawData t = b := by
  obtain ⟨t, hv, henc⟩ := h
  subst henc
  exact ⟨t, fromRawData_getRawData t hv, rfl⟩

/-- Witness for C2 at the concrete SD2 frame with LE=4
`68 04 04 68 08 02 4D 42 99 16`. -/
theorem claimC2_witness :
    ∃ t, fromRawData [0x68, 4, 4, 0x68, 8, 2, 0x4D, 0x42, 0x99, 0x16] =
        .ok t ∧
      getRawData t = [0x68, 4, 4, 0x68, 8, 2, 0x4D, 0x42, 0x99, 0x16] :=
  claimC2_fdl_roundtrip _
    ⟨varBase (some 8) (some 2) 0x4D [] [] [0x42],
     Or.inr (Or.inr (Or.inl
       ⟨8, 2, 0x4D, [], [], [0x42], by decide, by decide, by decide,
        Or.inl rfl, Or.inl rfl, by simp [byteListOk], by decide, rfl⟩)),
     by decide⟩

/-- C9 (amended): the decoder accepts an SD2 frame only if its two
repeated LE bytes are equal and the LE value lies in 3..249; any SD2
buffer violating this is rejected as an error by both `fromRawData` and
`getSizeFromRaw`. -/
theorem claimC9_sd2_le_validation (data : List Nat) (le le2 : Nat)
    (h0 : data.get? 0 = some SD2) (h1 : data.get? 1 = some le)
    (h2 : data.get? 2 = some le2) :
    ((∃ t, fromRawData data = .ok t) → le2 = le ∧ 3 ≤ le ∧ le ≤ 249) ∧
    ((∃ n, getSizeFromRaw data = .ok n) → le2 = le ∧ 3 ≤ le ∧ le ≤ 249) ∧
    (le2 ≠ le ∨ le < 3 ∨ 249 < le →
      (∃ e, fromRawData data = .error e) ∧
      (∃ e, getSizeFromRaw data = .error e)) := by
  refine ⟨?_, ?_, ?_⟩
  · rintro ⟨t, ht⟩
    by_cases hne : le2 = le
    · subst hne
      refine ⟨rfl, ?_, ?_⟩
      · by_contra hlt
        rw [fromRawData_sd2_le_range data le2 le2 h0 h1 h2 rfl
          (Or.inl (by omega))] at ht
        simp at ht
      · by_contra hgt
        rw [fromRawData_sd2_le_range data le2 le2 h0 h1 h2 rfl
          (Or.inr (by omega))] at ht
        simp at ht
    · rw [fromRawData_sd2_le_mismatch data le le2 h0 h1 h2 hne] at ht
      simp at ht
  · rintro ⟨n, hn⟩
    by_cases hne : le2 = le
    · subst hne
      refine ⟨rfl, ?_, ?_⟩
      · by_contra hlt
        rw [getSizeFromRaw_sd2_le_range data le2 le2 h0 h1 h2 rfl
          (Or.inl (by omega))] at hn
        simp at hn
      · by_contra hgt
        rw [getSizeFromRaw_sd2_le_range data le2 le2 h0 h1 h2 rfl
          (Or.inr (by omega))] at hn
        simp at hn
    · rw [getSizeFromRaw_sd2_le_mismatch data le le2 h0 h1 h2 hne] at hn
      simp at hn
  · intro hviol
    by_cases hne : le2 = le
    · subst hne
      have hr : le2 < 3 ∨ 249 < le2 := by
        rcases hviol with h | h | h
        · exact absurd rfl h
        · exact Or.inl h
        · exact Or.inr h
      exact ⟨⟨_, fromRawData_sd2_le_range data le2 le2 h0 h1 h2 rfl hr⟩,
             ⟨_, getSizeFromRaw_sd2_le_range data le2 le2 h0 h1 h2 rfl hr⟩⟩
    · exact ⟨⟨_, fromRawData_sd2_le_mismatch data le le2 h0 h1 h2 hne⟩,
             ⟨_, getSizeFromRaw_sd2_le_mismatch data le le2 h0 h1 h2 hne⟩⟩

/-- Counterexample to C9 as stated: the SD2 frame
`68 03 03 68 08 02 00 0A 16` has LE = 3, outside the claimed range 4..249,
yet both the size probe and the full decoder accept it. -/
theorem claimC9_counterexample :
    getSizeFromRaw [0x68, 3, 3, 0x68, 8, 2, 0, 10, 0x16] = .ok 9 ∧
    fromRawData [0x68, 3, 3, 0x68, 8, 2, 0, 10, 0x16] =
      .ok (varBase (some 8) (some 2) 0 [] [] []) ∧
    ¬(4 ≤ 3) := by decide

/-- Witness for C9 at the concrete buffer `68 05 04` (mismatching repeated
LE bytes): both codec entry points reject it. -/
theorem claimC9_witness :
    (∃ e, fromRawData [0x68, 5, 4] = .error e) ∧
    (∃ e, getSizeFromRaw [0x68, 5, 4] = .error e) :=
  (claimC9_sd2_le_validation [0x68, 5, 4] 5 4 rfl rfl rfl).2.2
    (Or.inl (by decide))

/-- C4 (amended): for every well-formed frame `b`, `getSizeFromRaw`
returns the exact frame size `size(b)` (1 for SC, 3 for SD4, 6 for SD1,
14 for SD3, LE+6 for SD2) for every prefix `b[0:k]` that contains the
probe header (`k ≥ 1`, or `k ≥ 3` for SD2); for shorter prefixes it
raises the `FdlError` format error — there is no distinct NeedMore
outcome. -/
theorem claimC4_size_from_raw (b : List Nat) (h : wellFormedFrame b) :
    (∀ k, sizeProbeHdr b ≤ k → getSizeFromRaw (b.take k) = .ok b.length) ∧
    (∀ k, k < sizeProbeHdr b →
      getSizeFromRaw (b.take k) = .error fmtError) ∧
    (b.get? 0 = some SC → b.length = 1) ∧
    (b.get? 0 = some SD4 → b.length = 3) ∧
    (b.get? 0 = some SD1 → b.length = 6) ∧
    (b.get? 0 = some SD3 → b.length = 14) ∧
    (∀ le, b.get? 0 = some SD2 → b.get? 1 = some le →
      b.length = le + 6) := by
  obtain ⟨t, hv, henc⟩ := h
  subst henc
  rcases hv with hsc | hsd1 | hsd2 | hsd3 | hsd4
  · subst hsc
    rw [getRawData_ack]
    have hp : sizeProbeHdr [SC] = 1 := by simp [sizeProbeHdr, SC, SD2]
    refine ⟨?_, ?_, ?_, ?_, ?_, ?_, ?_⟩
    · intro k hk
      rw [hp] at hk
      rw [List.take_of_length_le (by simp; omega)]
      exact getSizeFromRaw_sc _ rfl
    · intro k hk
      rw [hp] at hk
      have hk0 : k = 0 := by omega
      subst hk0
      rfl
    · intro _; rfl
    · intro hh; simp [SC, SD4] at hh
    · intro hh; simp [SC, SD1] at hh
    · intro hh; simp [SC, SD3] at hh
    · intro le hh _; simp [SC, SD2] at hh
  · obtain ⟨da, sa, fc, hda, hsa, _, ht⟩ := hsd1
    subst ht
    rw [getRawData_stat0 da sa fc hda hsa]
    have hp : sizeProbeHdr [SD1, da, sa, fc, calcFCS [da, sa, fc], ED] = 1 :=
      by simp [sizeProbeHdr, SD1, SD2]
    refine ⟨?_, ?_, ?_, ?_, ?_, ?_, ?_⟩
    · intro k hk
      rw [hp] at hk
      have h0 : (([SD1, da, sa, fc, calcFCS [da, sa, fc], ED]).take k).get? 0
          = some SD1 := by
        rw [List.get?_take (by omega)]
        rfl
      rw [getSizeFromRaw_sd1 _ h0]
      simp
    · intro k hk
      rw [hp] at hk
      have hk0 : k = 0 := by omega
      subst hk0
      rfl
    · intro hh; simp [SC, SD1] at hh
    · intro hh; simp [SD4, SD1] at hh
    · intro _; rfl
    · intro hh; simp [SD3, SD1] at hh
    · intro le hh _; simp [SD2, SD1] at hh
  · obtain ⟨da, sa, fc, dae, sae, du, hda, hsa, _, hdae, hsae, _, hlen, ht⟩ :=
      hsd2
    subst ht
    rw [getRawData_varBase da sa fc dae sae du hda hsa]
    have hYlen : (dae ++ sae ++ du).length =
        du.length + dae.length + sae.length := by
      simp [List.length_append]
      omega
    rw [← hYlen]
    generalize hdaB : (if dae.isEmpty then da else Nat.lor da 128) = daB
    generalize hsaB : (if sae.isEmpty then sa else Nat.lor sa 128) = saB
    generalize hY : dae ++ sae ++ du = Y
    rw [hY] at hYlen
    generalize hF : calcFCS (daB :: saB :: fc :: Y) = F
    have hblen : (SD2 :: (3 + Y.length) :: (3 + Y.length) :: SD2 :: daB ::
        saB :: fc :: (Y ++ [F, ED])).length = (3 + Y.length) + 6 := by
      simp
      omega
    have hp : sizeProbeHdr (SD2 :: (3 + Y.length) :: (3 + Y.length) :: SD2 ::
        daB :: saB :: fc :: (Y ++ [F, ED])) = 3 := by
      simp [sizeProbeHdr]
    refine ⟨?_, ?_, ?_, ?_, ?_, ?_, ?_⟩
    · intro k hk
      rw [hp] at hk
      have h0 : ((SD2 :: (3 + Y.length) :: (3 + Y.length) :: SD2 :: daB ::
          saB :: fc :: (Y ++ [F, ED])).take k).get? 0 = some SD2 := by
        rw [List.get?_take (by omega)]
        rfl
      have h1 : ((SD2 :: (3 + Y.length) :: (3 + Y.length) :: SD2 :: daB ::
          saB :: fc :: (Y ++ [F, ED])).take k).get? 1 =
          some (3 + Y.length) := by
        rw [List.get?_take (by omega)]
        rfl
      have h2 : ((SD2 :: (3 + Y.length) :: (3 + Y.length) :: SD2 :: daB ::
          saB :: fc :: (Y ++ [F, ED])).take k).get? 2 =
          some (3 + Y.length) := by
        rw [List.get?_take (by omega)]
        rfl
      rw [getSizeFromRaw_sd2 _ _ h0 h1 h2 (by omega) (by omega)]
      rw [hblen]
    · intro k hk
      rw [hp] at hk
      interval_cases k
      · rfl
      · exact (by decide : getSizeFromRaw [SD2] = .error fmtError)
      · show getSizeFromRaw [SD2, 3 + Y.length] = .error fmtError
        simp [getSizeFromRaw, SD1, SD2, SD3, SD4, SC]
    · intro hh; simp [SC, SD2] at hh
    · intro hh; simp [SD4, SD2] at hh
    · intro hh; simp [SD1, SD2] at hh
    · intro hh; simp [SD3, SD2] at hh
    · intro le hh hle
      simp only [List.get?_cons_succ, List.get?_cons_zero] at hle
      cases hle
      exact hblen
  · obtain ⟨da, sa, fc, dae, sae, du, hda, hsa, _, hdae, hsae, _, hlen, ht⟩ :=
      hsd3
    subst ht
    rw [getRawData_stat8Base da sa fc dae sae du hda hsa]
    have hYlen : (dae ++ sae ++ du).length = 8 := by
      simp [List.length_append]
      omega
    generalize hdaB : (if dae.isEmpty then da else Nat.lor da 128) = daB
    generalize hsaB : (if sae.isEmpty then sa else Nat.lor sa 128) = saB
    generalize hY : dae ++ sae ++ du = Y
    rw [hY] at hYlen
    generalize hF : calcFCS (daB :: saB :: fc :: Y) = F
    have hblen : (SD3 :: daB :: saB :: fc :: (Y ++ [F, ED])).length = 14 := by
      simp [hYlen]
    have hp : sizeProbeHdr (SD3 :: daB :: saB :: fc :: (Y ++ [F, ED])) = 1 :=
      by simp [sizeProbeHdr, SD3, SD2]
    refine ⟨?_, ?_, ?_, ?_, ?_, ?_, ?_⟩
    · intro k hk
      rw [hp] at hk
      have h0 : ((SD3 :: daB :: saB :: fc :: (Y ++ [F, ED])).take k).get? 0 =
          some SD3 := by
        rw [List.get?_take (by omega)]
        rfl
      rw [getSizeFromRaw_sd3 _ h0, hblen]
    · intro k hk
      rw [hp] at hk
      have hk0 : k = 0 := by omega
      subst hk0
      rfl
    · intro hh; simp [SC, SD3] at hh
    · intro hh; simp [SD4, SD3] at hh
    · intro hh; simp [SD1, SD3] at hh
    · intro _; exact hblen
    · intro le hh _; simp [SD2, SD3] at hh
  · obtain ⟨da, sa, hda, hsa, ht⟩ := hsd4
    subst ht
    rw [getRawData_token da sa hda hsa]
    have hp : sizeProbeHdr [SD4, da, sa] = 1 := by
      simp [sizeProbeHdr, SD4, SD2]
    refine ⟨?_, ?_, ?_, ?_, ?_, ?_, ?_⟩
    · intro k hk
      rw [hp] at hk
      have h0 : (([SD4, da, sa]).take k).get? 0 = some SD4 := by
        rw [List.get?_take (by omega)]
        rfl
      rw [getSizeFromRaw_sd4 _ h0]
      simp
    · intro k hk
      rw [hp] at hk
      have hk0 : k = 0 := by omega
      subst hk0
      rfl
    · intro hh; simp [SC, SD4] at hh
    · intro _; rfl
    · intro hh; simp [SD1, SD4] at hh
    · intro hh; simp [SD3, SD4] at hh
    · intro le hh _; simp [SD2, SD4] at hh

/-- Counterexample to C4 as stated: for the well-formed 6-byte SD1 frame
`10 08 02 49 53 16`, the 1-byte prefix (`k = 1 < 6 = size(b)`) does not
yield a NeedMore outcome: `getSizeFromRaw` already returns the size 6. -/
theorem claimC4_counterexample :
    wellFormedFrame [0x10, 8, 2, 0x49, 0x53, 0x16] ∧
    (1 : Nat) < 6 ∧
    getSizeFromRaw ([0x10, 8, 2, 0x49, 0x53, 0x16].take 1) = .ok 6 := by
  refine ⟨⟨stat0 (some 8) (some 2) 0x49,
    Or.inr (Or.inl ⟨8, 2, 0x49, by decide, by decide, by decide, rfl⟩),
    by decide⟩, by decide, by decide⟩

/-- Witness for C4 at the frame `10 08 02 49 53 16`: the 1-byte prefix
already answers 6, the empty prefix errors. -/
theorem claimC4_witness :
    getSizeFromRaw ([0x10, 8, 2, 0x49, 0x53, 0x16].take 3) = .ok 6 ∧
    getSizeFromRaw ([0x10, 8, 2, 0x49, 0x53, 0x16].take 0) =
      .error fmtError := by
  have h := claimC4_size_from_raw [0x10, 8, 2, 0x49, 0x53, 0x16]
    ⟨stat0 (some 8) (some 2) 0x49,
     Or.inr (Or.inl ⟨8, 2, 0x49, by decide, by decide, by decide, rfl⟩),
     by decide⟩
  have h1 := h.1 3 (by decide)
  have h2 := h.2.1 0 (by decide)
  rw [h1, h2]
  exact ⟨by decide, rfl⟩

/-- C3 (amended): a `Slave_Diag_Req` telegram with DA 8 and SA 2, passed
through the transceiver with a freshly reset, enabled FCB context, has its
FC rewritten to 0x6D and becomes the eleven-byte SD2 frame
`68 05 05 68 88 82 6D 3C 3E F1 16` (DSAP 60, SSAP 62 in the address
extensions) — not a six-byte SD1 frame. -/
theorem claimC3_slave_diag_req_encoding :
    dpTransceiverSend (FdlFCB.mkFCB true)
        (DpTelegram.slaveDiagReqBase (some 8) (some 2)) [] =
      .ok (⟨1, 0, true, true⟩,
           varBase (some 8) (some 2) 0x6D [0x3C] [0x3E] [], true) ∧
    getRawData (varBase (some 8) (some 2) 0x6D [0x3C] [0x3E] []) =
      [0x68, 0x05, 0x05, 0x68, 0x88, 0x82, 0x6D, 0x3C, 0x3E, 0xF1, 0x16] := by
  decide

/-- Counterexample to C3 as stated: the bytes the transceiver hands to the
PHY for `Slave_Diag_Req{da=8, sa=2}` are not the claimed six bytes
`10 08 02 6D 77 16`. -/
theorem claimC3_counterexample :
    ∃ fcb2 t2,
      dpTransceiverSend (FdlFCB.mkFCB true)
          (DpTelegram.slaveDiagReqBase (some 8) (some 2)) [] =
        .ok (fcb2, t2, true) ∧
      getRawData t2 ≠ [0x10, 0x08, 0x02, 0x6D, 0x77, 0x16] :=
  ⟨⟨1, 0, true, true⟩, varBase (some 8) (some 2) 0x6D [0x3C] [0x3E] [],
   by decide, by decide⟩

/-- C1: the very first send of the initialization sequence (the
`FDL_Stat_Req` to slave 8 from master 2, FCB disabled in state INIT)
crashes inside `CpPhy.send` with `AttributeError`, because
`FdlTransceiver.send` passes the raw byte list where `CpPhy.send` expects
the telegram object.  The error is not a `ProfibusError`, so
`DpMaster.__send`'s handler does not catch it and `run()` propagates it:
no frame ever reaches the dummy PHY and `isConnected` can never become
true. -/
theorem claimC1_run_first_send_attribute_error :
    transceiverSendToPhy (FdlFCB.mkFCB false) (fdlStatReq 8 2) =
      .error (.attributeError "list object has no attribute da") ∧
    (PyError.attributeError
      "list object has no attribute da").isProfibusError = false := by
  decide

/-- C10: DP dispatch tests SAP presence by Python truthiness, so a DAE
chain encoding DSAP number 0 behaves exactly as if no DSAP were present:
with a truthy SSAP the dispatch raises "Telegram with SSAP, but without
DSAP"; without one the telegram is dispatched as Data_Exchange by its
`FC_REQ` bit rather than by its SAP number. -/
theorem claimC10_dsap_zero_dispatch (fdl : FdlTelegram) (tim : Bool)
    (h : DpTelegram.extractSAP fdl.dae = some 0) :
    DpTelegram.fromFdlTelegram fdl tim =
      DpTelegram.fromFdlTelegram { fdl with dae := [] } tim ∧
    (DpTelegram.pyTruthy (DpTelegram.extractSAP fdl.sae) = true →
      DpTelegram.fromFdlTelegram fdl tim =
        .error (.dpError "Telegram with SSAP, but without DSAP")) ∧
    (DpTelegram.pyTruthy (DpTelegram.extractSAP fdl.sae) = false →
      ∀ fc, fdl.fc = some fc →
        DpTelegram.fromFdlTelegram fdl tim =
          if Nat.land fc FC_REQ ≠ 0 then
            .ok (.dataExchangeReq fdl.da fdl.sa (some fc) (fdl.du.getD []))
          else
            .ok (.dataExchangeCon fdl.da fdl.sa (some fc) (fdl.du.getD []))) := by
  have hd0 : DpTelegram.pyTruthy (some 0) = false := rfl
  have hdn : DpTelegram.pyTruthy none = false := rfl
  have hen : DpTelegram.extractSAP [] = none := rfl
  refine ⟨?_, ?_, ?_⟩
  · simp [DpTelegram.fromFdlTelegram, h, hd0, hdn, hen]
  · intro hs
    simp [DpTelegram.fromFdlTelegram, h, hd0, hs]
  · intro hs fc hfc
    simp [DpTelegram.fromFdlTelegram, h, hd0, hs, hfc]

/-- Witness for C10: an SD2 telegram whose DAE chain is the single byte
0x00 (DSAP number 0) and which has no SAE is dispatched as a
`Data_Exchange` request. -/
theorem claimC10_witness :
    DpTelegram.fromFdlTelegram
        (varBase (some 8) (some 2) 0x4D [0] [] [0x11]) true =
      .ok (.dataExchangeReq (some 8) (some 2) (some 0x4D) [0x11]) := by
  have h := claimC10_dsap_zero_dispatch
    (varBase (some 8) (some 2) 0x4D [0] [] [0x11]) true (by decide)
  have h3 := h.2.2 (by decide) 0x4D (by decide)
  rw [h3]
  decide

/-- Closed form of the slow-down factor after `n` consecutive severe
errors: it starts at 1 and rises by one per error, saturating at 10. -/
theorem slowDownIter_fact (now : ℚ) (n : Nat) :
    (slowDownIter now n).slowDownFact = min (n + 1) 10 := by
  induction n with
  | zero => rfl
  | succ n ih =>
    simp only [slowDownIter, masterSlowDown, ih]
    omega

/-- C5 (amended): every severe transmit/PHY error activates a slow-down of
`0.01 · k` seconds where the factor `k` starts at 1 and increases by one
on each consecutive error up to a cap of 10; any successful send resets
`k` to 1; while the slow-down is active, `run()` returns without executing
any slave state handler. -/
theorem claimC5_master_slowdown (now now2 : ℚ) (s : MasterRunState)
    (n : Nat) :
    (slowDownIter now n).slowDownFact = min (n + 1) 10 ∧
    (slowDownIter now (n + 1)).slowDown = true ∧
    (slowDownIter now (n + 1)).slowDownUntil =
      now + (1 / 100) * ((min (n + 1) 10 : Nat) : ℚ) ∧
    (masterSendOutcome now s false).1.slowDown = true ∧
    (masterSendOutcome now s true).1.slowDownFact = 1 ∧
    (s.slowDown = true → now2 < s.slowDownUntil →
      runSlowDownGate now2 s = (s, false)) := by
  refine ⟨slowDownIter_fact now n, rfl, ?_, ?_, ?_, ?_⟩
  · simp only [slowDownIter, masterSlowDown, slowDownIter_fact]
  · simp [masterSendOutcome, masterSlowDown]
  · simp [masterSendOutcome]
  · intro h1 h2
    simp [runSlowDownGate, h1, h2]

/-- Counterexample to C5 as stated: after two consecutive severe errors the
factor is 3, not the doubled value 2·2 = 4 the claim predicts. -/
theorem claimC5_counterexample :
    (masterSlowDown 0 (masterSlowDown 0 (masterRunInit 0))).slowDownFact = 3 ∧
    ¬((masterSlowDown 0 (masterSlowDown 0 (masterRunInit 0))).slowDownFact =
      2 * (masterSlowDown 0 (masterRunInit 0)).slowDownFact) := by
  constructor
  · simp [masterSlowDown, masterRunInit]
  · simp [masterSlowDown, masterRunInit]

/-- Witness for C5: after 11 consecutive errors the factor saturates at
10, and an active slow-down blocks `run()`. -/
theorem claimC5_witness :
    (slowDownIter 0 11).slowDownFact = min (11 + 1) 10 ∧
    runSlowDownGate 0 (masterSlowDown 0 (masterRunInit 0)) =
      (masterSlowDown 0 (masterRunInit 0), false) := by
  have h := claimC5_master_slowdown 0 0 (masterSlowDown 0 (masterRunInit 0)) 11
  exact ⟨h.1, h.2.2.2.2.2 (by simp [masterSlowDown])
    (by norm_num [masterSlowDown, masterRunInit])⟩

/-- C6 (amended): `addSlave` accepts every slave descriptor whose address
is not already registered and whose `inputSize` is at least 1, appending
its address to the registered map; it raises `DpError` when
`inputSize ≤ 0` (contrary to the claim, `inputSize = 0` is rejected) or
when the address is already registered; a failed call returns only the
error, so the registered map is unchanged. -/
theorem claimC6_add_slave (registered : List Nat) (d : DpSlaveDescModel) :
    (1 ≤ d.inputSize → d.slaveAddr ∉ registered →
      addSlave registered d = .ok (registered ++ [d.slaveAddr])) ∧
    (d.inputSize = 0 →
      addSlave registered d =
        .error (.dpError "input_size=0 is currently not supported.")) ∧
    (d.slaveAddr ∈ registered → 1 ≤ d.inputSize →
      addSlave registered d =
        .error (.dpError "Slave is already registered.")) ∧
    (∀ r, addSlave registered d = .ok r →
      1 ≤ d.inputSize ∧ d.slaveAddr ∉ registered ∧
      r = registered ++ [d.slaveAddr]) := by
  refine ⟨?_, ?_, ?_, ?_⟩
  · intro h1 h2
    unfold addSlave
    rw [if_neg (by omega), if_neg h2]
  · intro h0
    unfold addSlave
    rw [if_pos (by omega)]
  · intro hm h1
    unfold addSlave
    rw [if_neg (by omega), if_pos hm]
  · intro r hr
    unfold addSlave at hr
    by_cases h0 : d.inputSize ≤ 0
    · rw [if_pos h0] at hr
      simp at hr
    · rw [if_neg h0] at hr
      by_cases hm : d.slaveAddr ∈ registered
      · rw [if_pos hm] at hr
        simp at hr
      · rw [if_neg hm] at hr
        cases hr
        exact ⟨by omega, hm, rfl⟩

/-- Counterexample to C6 as stated: address 8 is in 1..125 and not
registered, and `inputSize = 0` is within the claimed range 0..246, yet
`addSlave` raises an error instead of accepting the descriptor. -/
theorem claimC6_counterexample :
    (8 : Nat) ∉ dpMasterInitRegistered ∧ (1 : Nat) ≤ 8 ∧ (8 : Nat) ≤ 125 ∧
    (0 : Nat) ≤ 246 ∧
    addSlave dpMasterInitRegistered ⟨8, 0x4224, 0, 0⟩ =
      .error (.dpError "input_size=0 is currently not supported.") := by
  decide

/-- Witness for C6: registering slave 8 with one input byte on a fresh
master succeeds. -/
theorem claimC6_witness :
    addSlave dpMasterInitRegistered ⟨8, 0x4224, 1, 1⟩ =
      .ok (dpMasterInitRegistered ++ [8]) :=
  (claimC6_add_slave dpMasterInitRegistered ⟨8, 0x4224, 1, 1⟩).1
    (by decide) (by decide)

/-- C7: `setMasterOutData` raises `DpError` for every byte sequence whose
length differs from the slave's configured `inputSize` — the raise
happens before the assignment, so the pending out-data keeps its previous
value — and stores the data when the length matches. -/
theorem claimC7_set_master_out_data (desc : DpSlaveDescModel)
    (st : DpSlaveStateModel) (d : List Nat) :
    (d.length ≠ desc.inputSize →
      setToSlaveData desc st (some d) =
        .error (.dpError "The setMasterOutData() data size does not match the slave's configured input_size.")) ∧
    (d.length = desc.inputSize →
      setToSlaveData desc st (some d) =
        .ok { st with toSlaveData := some d }) ∧
    (∀ st', setToSlaveData desc st (some d) = .ok st' →
      d.length = desc.inputSize ∧ st' = { st with toSlaveData := some d }) := by
  refine ⟨?_, ?_, ?_⟩
  · intro hne
    unfold setToSlaveData
    dsimp only
    rw [if_pos hne]
  · intro heq
    unfold setToSlaveData
    dsimp only
    rw [if_neg (by simp [heq])]
  · intro st' hst
    unfold setToSlaveData at hst
    dsimp only at hst
    by_cases hne : d.length = desc.inputSize
    · rw [if_neg (by simp [hne])] at hst
      cases hst
      exact ⟨hne, rfl⟩
    · rw [if_pos hne] at hst
      simp at hst

/-- Witness for C7 at a slave with `inputSize = 1`: a 2-byte write fails,
a 1-byte write is stored. -/
theorem claimC7_witness :
    setToSlaveData ⟨8, 0x4224, 1, 1⟩ ⟨none, none⟩ (some [0x5A, 0x5B]) =
      .error (.dpError "The setMasterOutData() data size does not match the slave's configured input_size.") ∧
    setToSlaveData ⟨8, 0x4224, 1, 1⟩ ⟨none, none⟩ (some [0x5A]) =
      .ok ⟨some [0x5A], none⟩ :=
  ⟨(claimC7_set_master_out_data ⟨8, 0x4224, 1, 1⟩ ⟨none, none⟩ [0x5A, 0x5B]).1
      (by decide),
   (claimC7_set_master_out_data ⟨8, 0x4224, 1, 1⟩ ⟨none, none⟩ [0x5A]).2.1
      (by decide)⟩

/-- C8: for every timeout in {10, 100, 300, 5000, 65025} ms, the watchdog
factor computation of `setWatchdog` yields `fact1` and `fact2`, each in
1..255, with `fact1·fact2·10 ≥ ms` and `(fact1-1)·fact2·10 < ms`, `fact2`
being a power of two found by successive doubling. -/
theorem claimC8_watchdog (ms : Nat) (h : ms ∈ [10, 100, 300, 5000, 65025]) :
    ∃ f1 f2, setWatchdogFactors ms = .ok (f1, f2) ∧
      1 ≤ f1 ∧ f1 ≤ 255 ∧ 1 ≤ f2 ∧ f2 ≤ 255 ∧
      ms ≤ f1 * f2 * 10 ∧ (f1 - 1) * f2 * 10 < ms ∧
      ∃ k, f2 = 2 ^ k := by
  have e10 : setWatchdogFactors 10 = .ok (1, 1) := by
    simp only [setWatchdogFactors]
    norm_num [wdLoop]
  have e100 : setWatchdogFactors 100 = .ok (10, 1) := by
    simp only [setWatchdogFactors]
    norm_num [wdLoop]
    decide
  have e300 : setWatchdogFactors 300 = .ok (30, 1) := by
    simp only [setWatchdogFactors]
    norm_num [wdLoop]
    decide
  have e5000 : setWatchdogFactors 5000 = .ok (250, 2) := by
    simp only [setWatchdogFactors]
    norm_num [wdLoop]
    decide
  have e65025 : setWatchdogFactors 65025 = .ok (204, 32) := by
    simp only [setWatchdogFactors]
    norm_num [wdLoop]
    rw [show ⌈(13005 / 64 : ℚ)⌉ = 204 by
      rw [Int.ceil_eq_iff]
      constructor <;> norm_num]
    decide
  simp only [List.mem_cons, List.not_mem_nil, or_false] at h
  rcases h with rfl | rfl | rfl | rfl | rfl
  · exact ⟨1, 1, e10, by decide, by decide, by decide, by decide, by decide,
      by decide, 0, by decide⟩
  · exact ⟨10, 1, e100, by decide, by decide, by decide, by decide, by decide,
      by decide, 0, by decide⟩
  · exact ⟨30, 1, e300, by decide, by decide, by decide, by decide, by decide,
      by decide, 0, by decide⟩
  · exact ⟨250, 2, e5000, by decide, by decide, by decide, by decide,
      by decide, by decide, 1, by decide⟩
  · exact ⟨204, 32, e65025, by decide, by decide, by decide, by decide,
      by decide, by decide, 5, by decide⟩

/-- Witness for C8 at `ms = 5000`. -/
theorem claimC8_witness :
    ∃ f1 f2, setWatchdogFactors 5000 = .ok (f1, f2) ∧
      1 ≤ f1 ∧ f1 ≤ 255 ∧ 1 ≤ f2 ∧ f2 ≤ 255 ∧
      5000 ≤ f1 * f2 * 10 ∧ (f1 - 1) * f2 * 10 < 5000 ∧
      ∃ k, f2 = 2 ^ k :=
  claimC8_watchdog 5000 (by decide)
